import Mathlib

/-!
# libsegwayrmp: the frame codec and the command facade of `segwayrmp.cpp`

A shallow embedding of `src/src/segwayrmp.cpp`.

* `unsigned char` values are `Fin 256`, `unsigned short` identifiers are `Fin 65536`.
* A C `int` is carried as its 32-bit two's-complement pattern, a natural number below `2^32`;
  `toShort` and `toInt32` read a pattern back as a signed value.
* The `float` fields of `SegwayStatus` are rationals: the scale factors are applied exactly and
  rounding to binary floating point is not modelled.
* What `segwayrmp.cpp` takes from `segwayrmp.h` (not among the sources) and from the compiler is
  gathered in `Build`.
* The transport `rmp_io` and the concurrent read thread are inputs, gathered in `World`.
* The read loop takes what each call of `rmp_io->getPacket` does as an input. The read thread and
  the delivery threads are interleaved by a schedule of `Action`s over `Sys`.
-/

namespace segwayrmp

/-! ## Machine integers -/

/-- An `unsigned char`. -/
abbrev Byte := Fin 256

/-- An `unsigned short`. -/
abbrev UShort := Fin 65536

/-- What `segwayrmp.cpp` takes from outside the file: the signedness of plain `char` (a property
of the compiler and target), and two constants of `segwayrmp.h`. -/
structure Build where
  /-- Plain `char` is a signed 8-bit type (x86 and x86-64 targets); `false`: it is unsigned. -/
  charSigned : Bool
  /-- The constant `MPS_TO_COUNTS`. -/
  MPS_TO_COUNTS : ℚ
  /-- The integer value of the enumerator `balanced` of `OperationalMode`. -/
  balanced : Int

/-- An `unsigned char` argument passed to a parameter of type `char` and then cast with `(int)`:
the 32-bit pattern of the result. With a signed `char` the values `0x80..0xFF` become negative and
the cast sign-extends them. -/
def charToInt (bld : Build) (b : Byte) : Nat :=
  if bld.charSigned && decide (128 ≤ b.val) then b.val + 0xFFFFFF00 else b.val

/-- The operator `<<` on a 32-bit `int` pattern. -/
def shl32 (x k : Nat) : Nat := (x <<< k) % 2 ^ 32

/-- The cast `(short int)`: the low 16 bits read as two's complement. -/
def toShort (x : Nat) : Int :=
  if x % 65536 < 32768 then ((x % 65536 : Nat) : Int) else ((x % 65536 : Nat) : Int) - 65536

/-- The cast `(int)` of a 32-bit pattern: read as two's complement. -/
def toInt32 (x : Nat) : Int :=
  if x % 2 ^ 32 < 2 ^ 31 then ((x % 2 ^ 32 : Nat) : Int) else ((x % 2 ^ 32 : Nat) : Int) - 2 ^ 32

/-- The 32-bit pattern of a signed value converted to `int` (a `short int` that is promoted, an
enumeration value that is cast). -/
def intBits (v : Int) : Nat := (v % 2 ^ 32).toNat

/-- Rounding toward zero of a rational to an integer. -/
def trunc (q : ℚ) : Int := q.num.tdiv q.den

/-- The cast `(short int)` of a floating-point value: the fractional part is discarded (rounding
toward zero); a result outside the 16-bit range keeps its low 16 bits. -/
def floatToShort (q : ℚ) : Int := toShort (intBits (trunc q))

/-- The cast `(unsigned char)` of an `int` pattern. -/
def toUChar (x : Nat) : Byte := ⟨x % 256, Nat.mod_lt _ (by decide)⟩

/-- The function `getShortInt(char byte_1, char byte_2)`:
`(short int)(((int)byte_1<<8)|(int)byte_2)`. -/
def getShortInt (bld : Build) (byte_1 byte_2 : Byte) : Int :=
  toShort (shl32 (charToInt bld byte_1) 8 ||| charToInt bld byte_2)

/-- The function `getInt(char byte_1, char byte_2, char byte_3, char byte_4)`:
`(int)(((int)byte_3<<24)|((int)byte_4<<16)|((int)byte_1<<8)|(int)byte_2)`. -/
def getInt (bld : Build) (byte_1 byte_2 byte_3 byte_4 : Byte) : Int :=
  toInt32 (shl32 (charToInt bld byte_3) 24 ||| shl32 (charToInt bld byte_4) 16
    ||| shl32 (charToInt bld byte_1) 8 ||| charToInt bld byte_2)

/-- The inline combine of two payload bytes used for the servo frame count and the battery
voltages: `(((x & 0x0ff) << 8) | (y & 0x0ff)) & 0x0ffff`. -/
def getUShort (x y : Byte) : Nat :=
  (shl32 (x.val &&& 0x0ff) 8 ||| (y.val &&& 0x0ff)) &&& 0x0ffff

/-! ## Frames and the status snapshot -/

/-- Modelled from the spec: the class `Packet` is declared in a header that is not among the
sources. A frame is an identifier (16-bit), a channel marker and an 8-byte payload; the fields
`d0 .. d7` are `data[0] .. data[7]`. -/
structure Packet where
  id : UShort
  channel : Byte
  d0 : Byte
  d1 : Byte
  d2 : Byte
  d3 : Byte
  d4 : Byte
  d5 : Byte
  d6 : Byte
  d7 : Byte
  deriving DecidableEq

/-- Modelled from the spec: a `Packet` as left by its default constructor (the constructor is in
the missing header); every field is taken as zero. The command functions overwrite `id` and all
eight payload bytes. -/
def Packet.fresh : Packet := ⟨0, 0, 0, 0, 0, 0, 0, 0, 0, 0⟩

/-- The class `SegwayStatus`: the fields are those that its constructor, `str` and `_parsePacket`
name (the declaration itself is in the header). The `float` fields are rationals; the enumerations
`OperationalMode` and `ControllerGainSchedule` are carried by their integer value. -/
structure SegwayStatus where
  pitch : ℚ
  pitch_rate : ℚ
  roll : ℚ
  roll_rate : ℚ
  left_wheel_speed : ℚ
  right_wheel_speed : ℚ
  yaw_rate : ℚ
  servo_frames : ℚ
  integrated_left_wheel_position : ℚ
  integrated_right_wheel_position : ℚ
  integrated_forward_position : ℚ
  integrated_turn_position : ℚ
  left_motor_torque : ℚ
  right_motor_torque : ℚ
  ui_battery_voltage : ℚ
  powerbase_battery_voltage : ℚ
  commanded_velocity : ℚ
  commanded_yaw_rate : ℚ
  operational_mode : Int
  controller_gain_schedule : Int
  motor_status : Int
  touched : Bool
  deriving DecidableEq

/-- The function `SegwayRMP::_parsePacket(Packet &packet, SegwayStatus &_segway_status)`: the
returned pair is the value of `status_updated` and the snapshot after the call. -/
def _parsePacket (bld : Build) (packet : Packet) (_segway_status : SegwayStatus) :
    Bool × SegwayStatus :=
  if packet.channel = 0xBB then (false, _segway_status)
  else if packet.id = 0x0400 then (false, _segway_status)
  else if packet.id = 0x0401 then
    (false, { _segway_status with
      pitch := (getShortInt bld packet.d0 packet.d1 : ℚ) / (78 / 10)
      pitch_rate := (getShortInt bld packet.d2 packet.d3 : ℚ) / (778 / 100)
      roll := (getShortInt bld packet.d4 packet.d5 : ℚ) / (778 / 100)
      roll_rate := (getShortInt bld packet.d6 packet.d7 : ℚ) / (778 / 100)
      touched := true })
  else if packet.id = 0x0402 then
    (false, { _segway_status with
      left_wheel_speed := (getShortInt bld packet.d0 packet.d1 : ℚ) / 332
      right_wheel_speed := (getShortInt bld packet.d0 packet.d1 : ℚ) / 332
      yaw_rate := (getShortInt bld packet.d0 packet.d1 : ℚ) / (78 / 10)
      servo_frames := (getUShort packet.d6 packet.d7 : ℚ) * (1 / 100)
      touched := true })
  else if packet.id = 0x0403 then
    (false, { _segway_status with
      integrated_left_wheel_position :=
        (getInt bld packet.d0 packet.d1 packet.d2 packet.d3 : ℚ) / 33215
      integrated_right_wheel_position :=
        (getInt bld packet.d4 packet.d5 packet.d6 packet.d7 : ℚ) / 33215
      touched := true })
  else if packet.id = 0x0404 then
    (false, { _segway_status with
      integrated_forward_position :=
        (getInt bld packet.d0 packet.d1 packet.d2 packet.d3 : ℚ) / 33215
      integrated_turn_position :=
        (getInt bld packet.d4 packet.d5 packet.d6 packet.d7 : ℚ) / 112644
      touched := true })
  else if packet.id = 0x0405 then
    (false, { _segway_status with
      left_motor_torque := (getShortInt bld packet.d0 packet.d1 : ℚ) / 1094
      right_motor_torque := (getShortInt bld packet.d0 packet.d1 : ℚ) / 1094
      touched := true })
  else if packet.id = 0x0406 then
    (false, { _segway_status with
      operational_mode := getShortInt bld packet.d0 packet.d1
      controller_gain_schedule := getShortInt bld packet.d0 packet.d1
      ui_battery_voltage := (getUShort packet.d4 packet.d5 : ℚ) * (125 / 10000) + 14 / 10
      powerbase_battery_voltage := (getUShort packet.d6 packet.d7 : ℚ) / 4
      touched := true })
  else if packet.id = 0x0407 then
    (true, { _segway_status with
      commanded_velocity := (getShortInt bld packet.d0 packet.d1 : ℚ) / bld.MPS_TO_COUNTS
      commanded_yaw_rate := (getShortInt bld packet.d0 packet.d1 : ℚ) / 1024
      touched := true })
  else if packet.id = 0x0680 then
    (false, { _segway_status with
      motor_status := if packet.d3 = 0x80 then 1 else 0
      touched := true })
  else (false, _segway_status)

/-- A snapshot with every field zero and `touched` false. -/
def SegwayStatus.zero : SegwayStatus :=
  ⟨0, 0, 0, 0, 0, 0, 0, 0, 0, 0, 0, 0, 0, 0, 0, 0, 0, 0, 0, 0, 0, false⟩

/-! ## The driver, its collaborators and the command functions -/

/-- A call made by the driver on a collaborator. -/
inductive Event where
  /-- The call `rmp_io->connect()`. -/
  | connect
  /-- The read thread is launched: `boost::thread(&SegwayRMP::readContinuously, this)`. -/
  | readContinuously
  /-- The call `rmp_io->sendPacket(packet)`. -/
  | sendPacket (packet : Packet)
  /-- The call `boost::this_thread::sleep(boost::posix_time::milliseconds(10))`. -/
  | sleep
  /-- The call `rmp_io->getPacket(packet)`. -/
  | getPacket
  /-- The call `this->error(msg)`. -/
  | error (msg : String)
  /-- The call `callback_execution_thread.join()`. -/
  | join
  /-- A delivery thread is launched with a copy of the snapshot:
  `boost::thread(&SegwayRMP::executeCallback, this, this->segway_status)`. -/
  | executeCallback (segway_status : SegwayStatus)
  /-- The consumer handler is called: `this->status_callback(...)` with this argument. -/
  | status_callback (segway_status : SegwayStatus)
  deriving DecidableEq

/-- The exceptions that leave the command functions. -/
inductive Exn where
  | MoveFailedException (what : String)
  | ConfigurationException (operation what : String)
  /-- An exception of the transport that `connect` does not catch. -/
  | transport (what : String)
  deriving DecidableEq

/-- How a call ends. -/
inductive Outcome where
  /-- The call returned normally. -/
  | returned
  /-- The call threw. -/
  | threw (e : Exn)
  /-- The call is still inside its polling loop after the number of checks that was granted. -/
  | polling
  deriving DecidableEq

/-- The members of `SegwayRMP` that the modelled functions use, and the calls made so far on the
collaborators (oldest first). -/
structure SegwayRMP where
  connected : Bool
  continuous : Bool
  callback_execution_thread_status : Bool
  segway_status : SegwayStatus
  trace : List Event

/-- The inputs that come from outside `segwayrmp.cpp`: the transport `rmp_io` and the read thread
that writes `segway_status` while a command function polls it. -/
structure World where
  /-- The call `rmp_io->connect()`: `none` when it returns, `some what` when it throws. -/
  connectThrows : Option String
  /-- The call `rmp_io->sendPacket(packet)` recorded at position `k` of the trace: `none` when it
  returns, `some what` when it throws an exception whose `what()` is `what`. -/
  sendThrows : Nat → Option String
  /-- What the read thread has done to the shared snapshot when check `k` (counted from 0) of the
  polling loop reads it, given the snapshot as the previous check left it. -/
  readThread : Nat → SegwayStatus → SegwayStatus

/-- The frames handed to `rmp_io->sendPacket`, in order. -/
def sentFrames : List Event → List Packet
  | [] => []
  | Event.sendPacket p :: t => p :: sentFrames t
  | _ :: t => sentFrames t

/-- The statement `this->rmp_io->sendPacket(packet)`: the call is recorded; the result is the
`what()` of the exception when the transport throws. -/
def sendPacket (w : World) (s : SegwayRMP) (packet : Packet) : Option String × SegwayRMP :=
  (w.sendThrows s.trace.length, { s with trace := s.trace ++ [Event.sendPacket packet] })

/-- The function `SegwayRMP::move(float linear_velocity, float angular_velocity)`. -/
def move (bld : Build) (w : World) (s : SegwayRMP) (linear_velocity angular_velocity : ℚ) :
    Outcome × SegwayRMP :=
  if !s.connected then (Outcome.threw (Exn.MoveFailedException "Not Connected."), s)
  else
    let lv : Int := floatToShort (linear_velocity * bld.MPS_TO_COUNTS)
    let av : Int := floatToShort (angular_velocity * 1024)
    let packet : Packet := { Packet.fresh with
      id := 0x0413
      d0 := toUChar ((intBits lv &&& 0xFF00) >>> 8)
      d1 := toUChar (intBits lv &&& 0x00FF)
      d2 := toUChar ((intBits av &&& 0xFF00) >>> 8)
      d3 := toUChar (intBits av &&& 0x00FF)
      d4 := 0x00
      d5 := 0x00
      d6 := 0x00
      d7 := 0x00 }
    match sendPacket w s packet with
    | (none, s1) => (Outcome.returned, s1)
    | (some what, s1) => (Outcome.threw (Exn.MoveFailedException what), s1)

/-- The loop `while(this->segway_status.operational_mode != operational_mode) sleep(10 ms)` of
`setOperationalMode`, run for at most `fuel` evaluations of its condition; `k` is the number of
the next check. The flag tells whether the loop was left. -/
def pollOperationalMode (w : World) (operational_mode : Int) :
    Nat → Nat → SegwayRMP → Bool × SegwayRMP
  | 0, _, s => (false, s)
  | fuel + 1, k, s =>
    let s1 := { s with segway_status := w.readThread k s.segway_status }
    if s1.segway_status.operational_mode ≠ operational_mode then
      pollOperationalMode w operational_mode fuel (k + 1)
        { s1 with trace := s1.trace ++ [Event.sleep] }
    else (true, s1)

/-- The function `SegwayRMP::setOperationalMode(OperationalMode operational_mode)`; `fuel` bounds
the number of evaluations of the loop condition. -/
def setOperationalMode (w : World) (fuel : Nat) (s : SegwayRMP) (operational_mode : Int) :
    Outcome × SegwayRMP :=
  if !s.connected then
    (Outcome.threw (Exn.ConfigurationException "Operational Mode" "Not Connected."), s)
  else
    let packet : Packet := { Packet.fresh with
      id := 0x0413
      d0 := 0x00
      d1 := 0x00
      d2 := 0x00
      d3 := 0x00
      d4 := 0x00
      d5 := 0x10
      d6 := 0x00
      d7 := toUChar (intBits operational_mode) }
    match sendPacket w s packet with
    | (some what, s1) => (Outcome.threw (Exn.ConfigurationException "Operational Mode" what), s1)
    | (none, s1) =>
      match pollOperationalMode w operational_mode fuel 0 s1 with
      | (true, s2) => (Outcome.returned, s2)
      | (false, s2) => (Outcome.polling, s2)

/-- The function
`SegwayRMP::setControllerGainSchedule(ControllerGainSchedule controller_gain_schedule)`. -/
def setControllerGainSchedule (w : World) (s : SegwayRMP) (controller_gain_schedule : Int) :
    Outcome × SegwayRMP :=
  if !s.connected then
    (Outcome.threw (Exn.ConfigurationException "Controller Gain Schedule" "Not Connected."), s)
  else
    let packet : Packet := { Packet.fresh with
      id := 0x0413
      d0 := 0x00
      d1 := 0x00
      d2 := 0x00
      d3 := 0x00
      d4 := 0x00
      d5 := 0x0D
      d6 := 0x00
      d7 := toUChar (intBits controller_gain_schedule) }
    match sendPacket w s packet with
    | (none, s1) => (Outcome.returned, s1)
    | (some what, s1) =>
      (Outcome.threw (Exn.ConfigurationException "Controller Gain Schedule" what), s1)

/-- The function `SegwayRMP::setBalanceModeLocking(bool state)`. -/
def setBalanceModeLocking (w : World) (s : SegwayRMP) (state : Bool) : Outcome × SegwayRMP :=
  if !s.connected then
    (Outcome.threw (Exn.ConfigurationException "Balance Mode Lock" "Not Connected."), s)
  else
    let packet : Packet := { Packet.fresh with
      id := 0x0413
      d0 := 0x00
      d1 := 0x00
      d2 := 0x00
      d3 := 0x00
      d4 := 0x00
      d5 := 0x0F
      d6 := 0x00
      d7 := if state then 0x01 else 0x00 }
    match sendPacket w s packet with
    | (none, s1) => (Outcome.returned, s1)
    | (some what, s1) => (Outcome.threw (Exn.ConfigurationException "Balance Mode Lock" what), s1)

/-- The function `SegwayRMP::resetAllIntegrators()`. -/
def resetAllIntegrators (w : World) (s : SegwayRMP) : Outcome × SegwayRMP :=
  if !s.connected then
    (Outcome.threw (Exn.ConfigurationException "Integrators" "Not Connected."), s)
  else
    let packet : Packet := { Packet.fresh with
      id := 0x0413
      d0 := 0x00
      d1 := 0x00
      d2 := 0x00
      d3 := 0x00
      d4 := 0x00
      d5 := 0x32
      d6 := 0x00
      d7 := 0x01 }
    match sendPacket w s packet with
    | (some what, s1) => (Outcome.threw (Exn.ConfigurationException "Integrators" what), s1)
    | (none, s1) =>
      match sendPacket w s1 { packet with d7 := 0x02 } with
      | (some what, s2) => (Outcome.threw (Exn.ConfigurationException "Integrators" what), s2)
      | (none, s2) =>
        match sendPacket w s2 { packet with d7 := 0x04 } with
        | (some what, s3) => (Outcome.threw (Exn.ConfigurationException "Integrators" what), s3)
        | (none, s3) =>
          match sendPacket w s3 { packet with d7 := 0x08 } with
          | (some what, s4) => (Outcome.threw (Exn.ConfigurationException "Integrators" what), s4)
          | (none, s4) => (Outcome.returned, s4)

/-- The function `SegwayRMP::startContinuousRead()`: the flag is set and the read thread is
launched. -/
def startContinuousRead (s : SegwayRMP) : SegwayRMP :=
  { s with continuous := true, trace := s.trace ++ [Event.readContinuously] }

/-- The function `SegwayRMP::connect(OperationalMode operational_mode,
ControllerGainSchedule controller_gain_schedule)`; `fuel` bounds the polling loop of
`setOperationalMode`. An exception of a called function ends `connect`. -/
def connect (bld : Build) (w : World) (fuel : Nat) (s : SegwayRMP)
    (operational_mode controller_gain_schedule : Int) : Outcome × SegwayRMP :=
  let s0 := { s with trace := s.trace ++ [Event.connect] }
  match w.connectThrows with
  | some what => (Outcome.threw (Exn.transport what), s0)
  | none =>
    let s1 := { s0 with connected := true }
    let s2 := startContinuousRead s1
    match setBalanceModeLocking w s2 (if operational_mode = bld.balanced then false else true) with
    | (Outcome.returned, s3) =>
      match setOperationalMode w fuel s3 operational_mode with
      | (Outcome.returned, s4) =>
        match setControllerGainSchedule w s4 controller_gain_schedule with
        | (Outcome.returned, s5) => resetAllIntegrators w s5
        | r5 => r5
      | r4 => r4
    | r3 => r3

/-- The snapshot that check `k + j` of a polling loop reads, when `st` is the snapshot as it stood
before check `k`: the writes of the read thread up to that check applied in order. -/
def snapshotAt (w : World) : Nat → SegwayStatus → Nat → SegwayStatus
  | k, st, 0 => w.readThread k st
  | k, st, j + 1 => snapshotAt w (k + 1) (w.readThread k st) j

/-- The configuration frame of the command functions: identifier 0x0413, sub-function selector in
byte 5, value in byte 7, the other bytes zero. -/
def configFrame (selector value : Byte) : Packet :=
  { Packet.fresh with
    id := 0x0413, d0 := 0, d1 := 0, d2 := 0, d3 := 0, d4 := 0, d5 := selector, d6 := 0,
    d7 := value }

/-! ## The read loop and the delivery of snapshots -/

/-- The function `SegwayRMP::parsePacket(Packet &packet)` as the read thread runs it from entry to
return. The call of `join` is recorded; that it waits for the previous delivery thread is part of
the interleaved model below. -/
def parsePacket (bld : Build) (s : SegwayRMP) (packet : Packet) : SegwayRMP :=
  let status_updated := (_parsePacket bld packet s.segway_status).1
  let s1 := { s with segway_status := (_parsePacket bld packet s.segway_status).2 }
  if status_updated then
    if s1.callback_execution_thread_status then
      { s1 with
        trace := s1.trace ++ [Event.error "Callback Falling behind, skipping packet report..."] }
    else
      { s1 with trace := s1.trace ++ [Event.join, Event.executeCallback s1.segway_status] }
  else s1

set_option linter.unusedVariables false in
/-- The function `SegwayRMP::executeCallback(SegwayStatus segway_status)` run from entry to
return: the argument of the handler is the member `this->segway_status`; the parameter is not
read. -/
def executeCallback (s : SegwayRMP) (segway_status : SegwayStatus) : SegwayRMP :=
  let s1 := { s with callback_execution_thread_status := true }
  let s2 := { s1 with trace := s1.trace ++ [Event.status_callback s1.segway_status] }
  { s2 with callback_execution_thread_status := false }

/-- What a call of `rmp_io->getPacket(packet)` does: it fills the frame, or it throws a
`PacketRetrievalException` with this `error_number()`. -/
inductive Received where
  | packet (packet : Packet)
  | PacketRetrievalException (error_number : Int)

/-- How a run of `readContinuously` stands. -/
inductive LoopEnd where
  /-- The loop is still running after the number of iterations that was granted. -/
  | running
  /-- The loop condition was false and the function returned. -/
  | returned
  /-- The function was left by `throw(e)`. -/
  | thrown (error_number : Int)
  deriving DecidableEq

/-- The number of calls of `rmp_io->getPacket` in a trace. -/
def receiveCount : List Event → Nat
  | [] => 0
  | Event.getPacket :: t => receiveCount t + 1
  | _ :: t => receiveCount t

/-- The function `SegwayRMP::readContinuously()`, run for at most `fuel` iterations; `getPacket n`
is what call number `n` (counted from 0) of `rmp_io->getPacket` does. No call of
`stopContinuousRead` by another thread is interleaved. -/
def readContinuously (bld : Build) (getPacket : Nat → Received) :
    Nat → SegwayRMP → LoopEnd × SegwayRMP
  | 0, s => (LoopEnd.running, s)
  | fuel + 1, s =>
    if !s.continuous then (LoopEnd.returned, s)
    else
      match getPacket (receiveCount s.trace) with
      | Received.packet packet =>
        readContinuously bld getPacket fuel
          (parsePacket bld { s with trace := s.trace ++ [Event.getPacket] } packet)
      | Received.PacketRetrievalException error_number =>
        if error_number = 2 then
          readContinuously bld getPacket fuel
            { s with trace := s.trace ++ [Event.getPacket, Event.error "Checksum mismatch..."] }
        else if error_number = 3 then
          readContinuously bld getPacket fuel
            { s with trace := s.trace ++ [Event.getPacket, Event.error "No data from Segway..."] }
        else (LoopEnd.thrown error_number, { s with trace := s.trace ++ [Event.getPacket] })

/-- The messages handed to `this->error`, in order. -/
def errorMessages : List Event → List String
  | [] => []
  | Event.error msg :: t => msg :: errorMessages t
  | _ :: t => errorMessages t

/-! ### The read thread and the delivery threads, interleaved -/

/-- Where a delivery thread stands in `executeCallback`. -/
inductive WorkerPc where
  /-- The thread exists; no statement of `executeCallback` has run. -/
  | launched
  /-- The flag `callback_execution_thread_status` has been set. -/
  | flagged
  /-- The handler `status_callback` has been called and has not returned. -/
  | inHandler
  /-- The handler has returned; the flag is still set. -/
  | handlerReturned
  /-- The flag has been cleared and the thread has ended. -/
  | finished
  deriving DecidableEq

/-- A delivery thread: the by-value argument `segway_status` it was launched with, and where it
stands. -/
structure Worker where
  segway_status : SegwayStatus
  pc : WorkerPc
  deriving DecidableEq

/-- The next statement of `executeCallback` run by a delivery thread on the shared driver. -/
def executeCallbackStep (s : SegwayRMP) (wk : Worker) : SegwayRMP × Worker :=
  match wk.pc with
  | WorkerPc.launched =>
    ({ s with callback_execution_thread_status := true }, { wk with pc := WorkerPc.flagged })
  | WorkerPc.flagged =>
    ({ s with trace := s.trace ++ [Event.status_callback s.segway_status] },
      { wk with pc := WorkerPc.inHandler })
  | WorkerPc.inHandler => (s, { wk with pc := WorkerPc.handlerReturned })
  | WorkerPc.handlerReturned =>
    ({ s with callback_execution_thread_status := false }, { wk with pc := WorkerPc.finished })
  | WorkerPc.finished => (s, wk)

/-- The driver together with its threads: the delivery threads launched so far, newest first (the
head is the thread that `callback_execution_thread` refers to), and whether the read thread is
inside `callback_execution_thread.join()`. -/
structure Sys where
  driver : SegwayRMP
  workers : List Worker
  joining : Bool

/-- A scheduling choice. -/
inductive Action where
  /-- The read thread runs `parsePacket(packet)` up to its return or up to the call of `join`. -/
  | parsePacket (packet : Packet)
  /-- The call of `join` returns and the read thread launches the delivery thread. -/
  | joinReturns
  /-- Delivery thread number `i` (0 is the newest) runs its next statement. -/
  | worker (i : Nat)

/-- Delivery thread number `i` of the list runs its next statement, if there is such a thread. -/
def stepWorker (s : SegwayRMP) : Nat → List Worker → SegwayRMP × List Worker
  | _, [] => (s, [])
  | 0, wk :: rest => ((executeCallbackStep s wk).1, (executeCallbackStep s wk).2 :: rest)
  | i + 1, wk :: rest => ((stepWorker s i rest).1, wk :: (stepWorker s i rest).2)

/-- Whether `join` on the thread that `callback_execution_thread` refers to returns: there is no
such thread yet, or it has ended. -/
def joinable : List Worker → Bool
  | [] => true
  | wk :: _ => decide (wk.pc = WorkerPc.finished)

/-- One scheduling choice applied to the system; a choice that is not enabled leaves it as it is
(the read thread cannot start a frame while it waits in `join`, and `join` does not return before
the thread it waits for has ended). -/
def step (bld : Build) (sys : Sys) : Action → Sys
  | Action.parsePacket packet =>
    if sys.joining then sys
    else
      let status_updated := (_parsePacket bld packet sys.driver.segway_status).1
      let s1 := { sys.driver with
        segway_status := (_parsePacket bld packet sys.driver.segway_status).2 }
      if status_updated then
        if s1.callback_execution_thread_status then
          { sys with driver := { s1 with trace := s1.trace ++
            [Event.error "Callback Falling behind, skipping packet report..."] } }
        else
          { sys with driver := { s1 with trace := s1.trace ++ [Event.join] }, joining := true }
      else { sys with driver := s1 }
  | Action.joinReturns =>
    if sys.joining && joinable sys.workers then
      { driver := { sys.driver with
          trace := sys.driver.trace ++ [Event.executeCallback sys.driver.segway_status] }
        workers := ⟨sys.driver.segway_status, WorkerPc.launched⟩ :: sys.workers
        joining := false }
    else sys
  | Action.worker i =>
    { sys with
      driver := (stepWorker sys.driver i sys.workers).1
      workers := (stepWorker sys.driver i sys.workers).2 }

/-- The system after a schedule. -/
def run (bld : Build) (sys : Sys) (schedule : List Action) : Sys :=
  schedule.foldl (step bld) sys

/-- The system of a driver before any delivery thread is launched. -/
def Sys.init (driver : SegwayRMP) : Sys := ⟨driver, [], false⟩

/-- The number of delivery threads that are inside the consumer handler. -/
def executing (sys : Sys) : Nat :=
  (sys.workers.filter fun wk => decide (wk.pc = WorkerPc.inHandler)).length

/-- Every delivery thread but the newest has ended. -/
def olderFinished (sys : Sys) : Prop := ∀ wk ∈ sys.workers.tail, wk.pc = WorkerPc.finished

/-- A transport whose first receive fails with a checksum mismatch (2), whose second receive fails
with no data (3), and that delivers `packet` on every later receive. -/
def receiveAfterTwoFailures (packet : Packet) : Nat → Received :=
  fun n => if n = 0 then Received.PacketRetrievalException 2
    else if n = 1 then Received.PacketRetrievalException 3
    else Received.packet packet

/-! ## Sequences of frames -/

/-- The names of the fields of `SegwayStatus`. -/
inductive Field where
  | pitch | pitch_rate | roll | roll_rate
  | left_wheel_speed | right_wheel_speed | yaw_rate | servo_frames
  | integrated_left_wheel_position | integrated_right_wheel_position
  | integrated_forward_position | integrated_turn_position
  | left_motor_torque | right_motor_torque
  | ui_battery_voltage | powerbase_battery_voltage
  | commanded_velocity | commanded_yaw_rate
  | operational_mode | controller_gain_schedule | motor_status | touched
  deriving DecidableEq

/-- The value held by a field of `SegwayStatus`. -/
inductive Value where
  | float (q : ℚ)
  | int (i : Int)
  | bool (b : Bool)
  deriving DecidableEq

/-- The value of the field named `f` in a snapshot. -/
def SegwayStatus.get (st : SegwayStatus) : Field → Value
  | Field.pitch => Value.float st.pitch
  | Field.pitch_rate => Value.float st.pitch_rate
  | Field.roll => Value.float st.roll
  | Field.roll_rate => Value.float st.roll_rate
  | Field.left_wheel_speed => Value.float st.left_wheel_speed
  | Field.right_wheel_speed => Value.float st.right_wheel_speed
  | Field.yaw_rate => Value.float st.yaw_rate
  | Field.servo_frames => Value.float st.servo_frames
  | Field.integrated_left_wheel_position => Value.float st.integrated_left_wheel_position
  | Field.integrated_right_wheel_position => Value.float st.integrated_right_wheel_position
  | Field.integrated_forward_position => Value.float st.integrated_forward_position
  | Field.integrated_turn_position => Value.float st.integrated_turn_position
  | Field.left_motor_torque => Value.float st.left_motor_torque
  | Field.right_motor_torque => Value.float st.right_motor_torque
  | Field.ui_battery_voltage => Value.float st.ui_battery_voltage
  | Field.powerbase_battery_voltage => Value.float st.powerbase_battery_voltage
  | Field.commanded_velocity => Value.float st.commanded_velocity
  | Field.commanded_yaw_rate => Value.float st.commanded_yaw_rate
  | Field.operational_mode => Value.int st.operational_mode
  | Field.controller_gain_schedule => Value.int st.controller_gain_schedule
  | Field.motor_status => Value.int st.motor_status
  | Field.touched => Value.bool st.touched

/-- The fields that `_parsePacket` assigns for a frame: those on the left of an assignment in the
`case` that the frame selects; none for a frame on channel 0xBB. -/
def writtenFields (packet : Packet) : List Field :=
  if packet.channel = 0xBB then []
  else if packet.id = 0x0401 then
    [Field.pitch, Field.pitch_rate, Field.roll, Field.roll_rate, Field.touched]
  else if packet.id = 0x0402 then
    [Field.left_wheel_speed, Field.right_wheel_speed, Field.yaw_rate, Field.servo_frames,
      Field.touched]
  else if packet.id = 0x0403 then
    [Field.integrated_left_wheel_position, Field.integrated_right_wheel_position, Field.touched]
  else if packet.id = 0x0404 then
    [Field.integrated_forward_position, Field.integrated_turn_position, Field.touched]
  else if packet.id = 0x0405 then
    [Field.left_motor_torque, Field.right_motor_torque, Field.touched]
  else if packet.id = 0x0406 then
    [Field.operational_mode, Field.controller_gain_schedule, Field.ui_battery_voltage,
      Field.powerbase_battery_voltage, Field.touched]
  else if packet.id = 0x0407 then
    [Field.commanded_velocity, Field.commanded_yaw_rate, Field.touched]
  else if packet.id = 0x0680 then [Field.motor_status, Field.touched]
  else []

/-- The frames of a list decoded in arrival order into one snapshot: the flags returned by
`_parsePacket`, in order, and the snapshot after the last frame. -/
def parseAll (bld : Build) : List Packet → SegwayStatus → List Bool × SegwayStatus
  | [], st => ([], st)
  | packet :: rest, st =>
    ((_parsePacket bld packet st).1 :: (parseAll bld rest (_parsePacket bld packet st).2).1,
      (parseAll bld rest (_parsePacket bld packet st).2).2)

/-- The last frame of a sequence that writes the field `f`, if there is one. -/
def lastWriter (f : Field) (frames : List Packet) : Option Packet :=
  frames.reverse.find? (fun packet => decide (f ∈ writtenFields packet))

/-! ## Sample inputs -/

/-- A build for an x86 target: plain `char` is signed. The two constants are sample values. -/
def Build.x86 : Build := ⟨true, 332, 2⟩

/-- A transport that opens and accepts every send, and a read thread that writes nothing. -/
def World.quiet : World := ⟨none, fun _ => none, fun _ st => st⟩

/-- A transport that opens and accepts every send, and a read thread that writes
`operational_mode` into the snapshot just before check `n` of a polling loop. -/
def World.confirming (n : Nat) (operational_mode : Int) : World :=
  ⟨none, fun _ => none,
    fun k st => if k = n then { st with operational_mode := operational_mode } else st⟩

/-- A transport that opens and accepts every send, and a read thread that decodes the frames
`arrivals k` into the shared snapshot (as `parsePacket` does, with `_parsePacket`) just before
check `k` of a polling loop. -/
def World.reading (bld : Build) (arrivals : Nat → List Packet) : World :=
  ⟨none, fun _ => none,
    fun k st => (arrivals k).foldl (fun acc packet => (_parsePacket bld packet acc).2) st⟩

/-- A driver that is not connected, with an untouched all-zero snapshot and no call made yet. -/
def SegwayRMP.idle : SegwayRMP := ⟨false, false, false, SegwayStatus.zero, []⟩

/-- A connected driver with an untouched all-zero snapshot and no call made yet. -/
def SegwayRMP.ready : SegwayRMP := ⟨true, true, false, SegwayStatus.zero, []⟩

/-! ## The combine rules as the specification words them -/

/-- The signed-16 combine of the specification: the big-endian value `256*d0 + d1` of two bytes,
reinterpreted as a two's-complement 16-bit integer. -/
def specSigned16 (d0 d1 : Byte) : Int :=
  if 256 * d0.val + d1.val < 32768 then ((256 * d0.val + d1.val : Nat) : Int)
  else ((256 * d0.val + d1.val : Nat) : Int) - 65536

/-- The signed-32 combine of the specification: `(x2<<24)|(x3<<16)|(x0<<8)|x1` with every byte
taken as an unsigned value, the 32-bit result reinterpreted as two's complement. -/
def specSigned32 (x0 x1 x2 x3 : Byte) : Int :=
  if x2.val <<< 24 ||| x3.val <<< 16 ||| x0.val <<< 8 ||| x1.val < 2 ^ 31
  then ((x2.val <<< 24 ||| x3.val <<< 16 ||| x0.val <<< 8 ||| x1.val : Nat) : Int)
  else ((x2.val <<< 24 ||| x3.val <<< 16 ||| x0.val <<< 8 ||| x1.val : Nat) : Int) - 2 ^ 32

/-- The big-endian two's-complement encoding of a 16-bit value: high byte, low byte. -/
def specBigEndian16 (v : Int) : Byte × Byte :=
  (⟨((v % 65536) / 256).toNat, by omega⟩, ⟨((v % 65536) % 256).toNat, by omega⟩)

/-! ## Theorems -/

/-! ### Bit-level lemmas -/

theorem or_mod_two_pow (a b n : Nat) : (a ||| b) % 2 ^ n = a % 2 ^ n ||| b % 2 ^ n := by
  apply Nat.eq_of_testBit_eq
  intro i
  simp only [Nat.testBit_mod_two_pow, Nat.testBit_or]
  cases decide (i < n) <;> simp

theorem toShort_mod (x : Nat) : toShort (x % 65536) = toShort x := by
  simp [toShort]

theorem mul256_or (a b : Nat) (hb : b < 256) : 256 * a ||| b = 256 * a + b :=
  (Nat.mul_add_lt_is_or (i := 8) hb a).symm

set_option maxRecDepth 100000 in
theorem or_ff00 : ∀ d : Byte, 256 * d.val ||| 0xFF00 = 0xFF00 := by decide

theorem shl32_char_low16 (bld : Build) (b : Byte) :
    shl32 (charToInt bld b) 8 % 65536 = 256 * b.val := by
  have hb := b.isLt
  unfold shl32 charToInt
  rw [Nat.shiftLeft_eq]
  split <;> omega

theorem or_low16 (bld : Build) (d0 d1 : Byte) :
    (shl32 (charToInt bld d0) 8 ||| charToInt bld d1) % 65536
      = 256 * d0.val ||| charToInt bld d1 % 65536 := by
  have h := or_mod_two_pow (shl32 (charToInt bld d0) 8) (charToInt bld d1) 16
  have e : (2 : Nat) ^ 16 = 65536 := by norm_num
  rw [e] at h
  rw [h, shl32_char_low16]

/-- Where `getShortInt` agrees with the signed-16 combine of the specification: on every build
whose plain `char` is unsigned, and on every build when the low byte is below 0x80. -/
theorem getShortInt_eq_spec (bld : Build) (d0 d1 : Byte)
    (h : bld.charSigned = false ∨ d1.val < 128) :
    getShortInt bld d0 d1 = specSigned16 d0 d1 := by
  have h0 := d0.isLt
  have h1 := d1.isLt
  have hc : charToInt bld d1 = d1.val := by
    rcases h with h | h
    · simp [charToInt, h]
    · simp [charToInt]; omega
  unfold getShortInt
  rw [← toShort_mod, or_low16, hc, Nat.mod_eq_of_lt (by omega), mul256_or _ _ h1]
  unfold toShort specSigned16
  have : (256 * d0.val + d1.val) % 65536 = 256 * d0.val + d1.val := by omega
  simp only [this]

/-- What `getShortInt` returns when plain `char` is signed and the low byte is 0x80 or above: the
sign extension of the low byte fills the high byte, whatever `byte_1` is. -/
theorem getShortInt_signed_high (bld : Build) (d0 d1 : Byte)
    (hs : bld.charSigned = true) (h : 128 ≤ d1.val) :
    getShortInt bld d0 d1 = (d1.val : Int) - 256 := by
  have h1 := d1.isLt
  have hc : charToInt bld d1 % 65536 = 0xFF00 + d1.val := by
    simp only [charToInt, hs, Bool.true_and, decide_eq_true_eq, if_pos h]
    omega
  have e : (0xFF00 : Nat) + d1.val = 256 * 255 ||| d1.val := by
    rw [mul256_or _ _ h1]
  unfold getShortInt
  rw [← toShort_mod, or_low16, hc, e, ← Nat.or_assoc]
  have e2 : 256 * d0.val ||| 256 * 255 = 0xFF00 := or_ff00 d0
  rw [e2]
  have e3 : (0xFF00 : Nat) ||| d1.val = 0xFF00 + d1.val := mul256_or 255 _ h1
  rw [e3]
  unfold toShort
  have : (0xFF00 + d1.val) % 65536 = 0xFF00 + d1.val := by omega
  simp only [this]
  split <;> omega

theorem shl32_char_24 (bld : Build) (b : Byte) :
    shl32 (charToInt bld b) 24 = b.val <<< 24 := by
  have hb := b.isLt
  unfold shl32 charToInt
  rw [Nat.shiftLeft_eq, Nat.shiftLeft_eq]
  split <;> omega

theorem shl32_byte (b : Byte) (k : Nat) (hk : k ≤ 24) : shl32 b.val k = b.val <<< k := by
  have hb := b.isLt
  unfold shl32
  apply Nat.mod_eq_of_lt
  rw [Nat.shiftLeft_eq]
  calc b.val * 2 ^ k < 256 * 2 ^ k := by
        apply Nat.mul_lt_mul_of_pos_right hb (Nat.two_pow_pos k)
    _ ≤ 256 * 2 ^ 24 := Nat.mul_le_mul_left _ (Nat.pow_le_pow_right (by decide) hk)
    _ = 2 ^ 32 := by norm_num

/-- Where `getInt` agrees with the signed-32 combine of the specification: on every build whose
plain `char` is unsigned, and on every build when the three bytes that land below bit 24 are all
below 0x80. -/
theorem getInt_eq_spec (bld : Build) (x0 x1 x2 x3 : Byte)
    (h : bld.charSigned = false ∨ (x0.val < 128 ∧ x1.val < 128 ∧ x3.val < 128)) :
    getInt bld x0 x1 x2 x3 = specSigned32 x0 x1 x2 x3 := by
  have hc : ∀ b : Byte, (bld.charSigned = false ∨ b.val < 128) → charToInt bld b = b.val := by
    intro b hb
    rcases hb with hb | hb
    · simp [charToInt, hb]
    · simp [charToInt]; omega
  have c0 := hc x0 (h.imp id fun t => t.1)
  have c1 := hc x1 (h.imp id fun t => t.2.1)
  have c3 := hc x3 (h.imp id fun t => t.2.2)
  have b0 := x0.isLt
  have b1 := x1.isLt
  have b2 := x2.isLt
  have b3 := x3.isLt
  have hlt : x2.val <<< 24 ||| x3.val <<< 16 ||| x0.val <<< 8 ||| x1.val < 2 ^ 32 := by
    refine Nat.or_lt_two_pow (Nat.or_lt_two_pow (Nat.or_lt_two_pow ?_ ?_) ?_) ?_
    · rw [Nat.shiftLeft_eq]; omega
    · rw [Nat.shiftLeft_eq]; omega
    · rw [Nat.shiftLeft_eq]; omega
    · omega
  unfold getInt
  rw [shl32_char_24, c3, c0, c1, shl32_byte x3 16 (by decide), shl32_byte x0 8 (by decide)]
  unfold toInt32 specSigned32
  rw [Nat.mod_eq_of_lt hlt]

theorem and_ff00_shr (n : Nat) : (n &&& 0xFF00) >>> 8 = n / 256 % 256 := by
  have e1 : n / 256 % 256 = (n >>> 8) % 2 ^ 8 := by
    rw [Nat.shiftRight_eq_div_pow]; norm_num
  have e2 : (0xFF00 : Nat) = (2 ^ 8 - 1) <<< 8 := by decide
  rw [e1, e2]
  apply Nat.eq_of_testBit_eq
  intro j
  simp only [Nat.testBit_shiftRight, Nat.testBit_and, Nat.testBit_mod_two_pow,
    Nat.testBit_shiftLeft, Nat.testBit_two_pow_sub_one]
  have : 8 + j - 8 = j := by omega
  rw [this]
  cases Nat.testBit n (8 + j) <;> simp

theorem and_00ff (n : Nat) : n &&& 0x00FF = n % 256 :=
  Nat.and_pow_two_sub_one_eq_mod n 8

theorem toShort_intBits (t : Int) (h1 : -32768 ≤ t) (h2 : t ≤ 32767) :
    toShort (intBits t) = t := by
  unfold toShort intBits
  split <;> omega

theorem toUChar_high (t : Int) :
    toUChar ((intBits t &&& 0xFF00) >>> 8) = (specBigEndian16 t).1 := by
  apply Fin.ext
  simp only [toUChar, specBigEndian16, and_ff00_shr, intBits]
  omega

theorem toUChar_low (t : Int) :
    toUChar (intBits t &&& 0x00FF) = (specBigEndian16 t).2 := by
  apply Fin.ext
  simp only [toUChar, specBigEndian16, and_00ff, intBits]
  omega

/-! ### Rounding toward zero -/

theorem trunc_of_nonneg (q : ℚ) (h : 0 ≤ q) : trunc q = ⌊q⌋ := by
  unfold trunc
  rw [Rat.floor_def, Int.tdiv_eq_ediv (Rat.num_nonneg.mpr h) (Int.ofNat_nonneg _)]

theorem trunc_neg (q : ℚ) : trunc (-q) = -trunc q := by
  unfold trunc
  rw [Rat.neg_num, Rat.neg_den, Int.neg_tdiv]

theorem trunc_of_nonpos (q : ℚ) (h : q ≤ 0) : trunc q = ⌈q⌉ := by
  have h1 := trunc_of_nonneg (-q) (neg_nonneg.mpr h)
  rw [trunc_neg, Int.floor_neg] at h1
  omega

/-! ### The decoder -/

/-- C1: a frame whose channel marker is 0xBB is ignored: for every identifier, payload and
snapshot, `_parsePacket` returns false and the snapshot (the touched flag included) is the one it
was given. -/
theorem parsePacket_channelB_ignored (bld : Build) (packet : Packet) (st : SegwayStatus)
    (hch : packet.channel = 0xBB) :
    _parsePacket bld packet st = (false, st) := by
  simp [_parsePacket, hch]

theorem parsePacket_channelB_ignored_witness :
    (0xBB : Byte) = 0xBB ∧
      _parsePacket Build.x86 ⟨0x0401, 0xBB, 1, 2, 3, 4, 5, 6, 7, 8⟩ SegwayStatus.zero
        = (false, SegwayStatus.zero) :=
  ⟨rfl, parsePacket_channelB_ignored Build.x86 ⟨0x0401, 0xBB, 1, 2, 3, 4, 5, 6, 7, 8⟩
    SegwayStatus.zero rfl⟩

/-- C2: on the telemetry channel (channel marker different from 0xBB) `_parsePacket` returns true
exactly when the frame identifier is 0x0407; for every other identifier, known or unknown, it
returns false. -/
theorem parsePacket_true_iff_0x0407 (bld : Build) (packet : Packet) (st : SegwayStatus)
    (hch : packet.channel ≠ 0xBB) :
    ((_parsePacket bld packet st).1 = true ↔ packet.id = 0x0407) ∧
      (packet.id ≠ 0x0407 → (_parsePacket bld packet st).1 = false) := by
  have key : (_parsePacket bld packet st).1 = true ↔ packet.id = 0x0407 := by
    simp only [_parsePacket, apply_ite Prod.fst, if_neg hch]
    split_ifs <;> simp [*]
  refine ⟨key, fun hne => ?_⟩
  cases hv : (_parsePacket bld packet st).1
  · rfl
  · exact absurd (key.mp hv) hne

theorem parsePacket_true_iff_0x0407_witness :
    (0xAA : Byte) ≠ 0xBB ∧
      (((_parsePacket Build.x86 ⟨0x0407, 0xAA, 1, 2, 3, 4, 5, 6, 7, 8⟩ SegwayStatus.zero).1 = true
          ↔ (0x0407 : UShort) = 0x0407) ∧
        ((0x0407 : UShort) ≠ 0x0407 →
          (_parsePacket Build.x86 ⟨0x0407, 0xAA, 1, 2, 3, 4, 5, 6, 7, 8⟩ SegwayStatus.zero).1
            = false)) :=
  ⟨by decide, parsePacket_true_iff_0x0407 Build.x86 ⟨0x0407, 0xAA, 1, 2, 3, 4, 5, 6, 7, 8⟩
    SegwayStatus.zero (by decide)⟩

/-- C3, at an input where the code departs from the claim: on a build whose plain `char` is
signed, the payload bytes d0 = 0x00, d1 = 0x80 of a 0x0401 telemetry frame are combined by
`getShortInt` to -128, while the big-endian value 0x0080 read as two's complement is 128; the
decoded pitch is -128/7.8 and differs from 128/7.8. -/
theorem getShortInt_sign_extends_low_byte (m : ℚ) (b : Int) (st : SegwayStatus) :
    getShortInt ⟨true, m, b⟩ 0x00 0x80 = -128 ∧ specSigned16 0x00 0x80 = 128 ∧
    (_parsePacket ⟨true, m, b⟩ ⟨0x0401, 0xAA, 0x00, 0x80, 0, 0, 0, 0, 0, 0⟩ st).2.pitch
      = -128 / (78 / 10) ∧
    (_parsePacket ⟨true, m, b⟩ ⟨0x0401, 0xAA, 0x00, 0x80, 0, 0, 0, 0, 0, 0⟩ st).2.pitch
      ≠ (specSigned16 0x00 0x80 : ℚ) / (78 / 10) := by
  have h1 : getShortInt ⟨true, m, b⟩ 0x00 0x80 = -128 := by
    simp only [getShortInt, charToInt, Bool.true_and, decide_eq_true_eq]
    decide
  have h2 : specSigned16 0x00 0x80 = 128 := by decide
  have h3 : (_parsePacket ⟨true, m, b⟩ ⟨0x0401, 0xAA, 0x00, 0x80, 0, 0, 0, 0, 0, 0⟩ st).2.pitch
      = (getShortInt ⟨true, m, b⟩ 0x00 0x80 : ℚ) / (78 / 10) := by
    simp [_parsePacket]
  refine ⟨h1, h2, ?_, ?_⟩
  · rw [h3, h1]; norm_num
  · rw [h3, h1, h2]; norm_num

/-- C4, at an input where the code departs from the claim: on a build whose plain `char` is
signed, the payload bytes b0 = 0x00, b1 = 0x80, b2 = 0x00, b3 = 0x00 of a 0x0403 telemetry frame
are combined by `getInt` to -128, while `(b2<<24)|(b3<<16)|(b0<<8)|b1` with unsigned bytes is 128;
the decoded integrated left wheel position is -128/33215 and differs from 128/33215. -/
theorem getInt_sign_extends_low_bytes (m : ℚ) (b : Int) (st : SegwayStatus) :
    getInt ⟨true, m, b⟩ 0x00 0x80 0x00 0x00 = -128 ∧ specSigned32 0x00 0x80 0x00 0x00 = 128 ∧
    (_parsePacket ⟨true, m, b⟩ ⟨0x0403, 0xAA, 0x00, 0x80, 0, 0, 0, 0, 0, 0⟩
        st).2.integrated_left_wheel_position = -128 / 33215 ∧
    (_parsePacket ⟨true, m, b⟩ ⟨0x0403, 0xAA, 0x00, 0x80, 0, 0, 0, 0, 0, 0⟩
        st).2.integrated_left_wheel_position
      ≠ (specSigned32 0x00 0x80 0x00 0x00 : ℚ) / 33215 := by
  have h1 : getInt ⟨true, m, b⟩ 0x00 0x80 0x00 0x00 = -128 := by
    simp only [getInt, charToInt, Bool.true_and, decide_eq_true_eq]
    decide
  have h2 : specSigned32 0x00 0x80 0x00 0x00 = 128 := by decide
  have h3 : (_parsePacket ⟨true, m, b⟩ ⟨0x0403, 0xAA, 0x00, 0x80, 0, 0, 0, 0, 0, 0⟩
        st).2.integrated_left_wheel_position
      = (getInt ⟨true, m, b⟩ 0x00 0x80 0x00 0x00 : ℚ) / 33215 := by
    simp [_parsePacket]
  refine ⟨h1, h2, ?_, ?_⟩
  · rw [h3, h1]; norm_num
  · rw [h3, h1, h2]; norm_num

/-! ### The command functions -/

theorem sentFrames_append (a b : List Event) :
    sentFrames (a ++ b) = sentFrames a ++ sentFrames b := by
  induction a with
  | nil => rfl
  | cons e t ih => cases e <;> simp [sentFrames, ih]

theorem sendPacket_accepted (w : World) (s : SegwayRMP) (p : Packet)
    (h : w.sendThrows s.trace.length = none) :
    sendPacket w s p = (none, { s with trace := s.trace ++ [Event.sendPacket p] }) := by
  simp [sendPacket, h]

theorem toUChar_intBits (v : Int) : ((toUChar (intBits v)).val : Int) = v % 256 := by
  simp only [toUChar, intBits]
  omega

theorem poll_confirmed (w : World) (m : Int) :
    ∀ (N fuel k : Nat) (s : SegwayRMP), N < fuel →
      (∀ j, j < N → (snapshotAt w k s.segway_status j).operational_mode ≠ m) →
      (snapshotAt w k s.segway_status N).operational_mode = m →
      pollOperationalMode w m fuel k s = (true, { s with
        segway_status := snapshotAt w k s.segway_status N
        trace := s.trace ++ List.replicate N Event.sleep }) := by
  intro N
  induction N with
  | zero =>
    intro fuel k s hf _ heq
    obtain ⟨f, rfl⟩ : ∃ f, fuel = f + 1 := ⟨fuel - 1, by omega⟩
    simp only [snapshotAt] at heq
    simp [pollOperationalMode, snapshotAt, heq]
  | succ N ih =>
    intro fuel k s hf hdiff heq
    obtain ⟨f, rfl⟩ : ∃ f, fuel = f + 1 := ⟨fuel - 1, by omega⟩
    have h0 := hdiff 0 (by omega)
    simp only [snapshotAt] at h0 heq
    have hrec := ih f (k + 1)
      { s with segway_status := w.readThread k s.segway_status, trace := s.trace ++ [Event.sleep] }
      (by omega)
      (fun j hj => by
        have := hdiff (j + 1) (by omega)
        simpa [snapshotAt] using this)
      (by simpa using heq)
    simp only [pollOperationalMode, ne_eq, h0, not_false_eq_true, if_true]
    rw [hrec]
    simp [snapshotAt, List.replicate_succ]

theorem poll_unconfirmed (w : World) (m : Int) :
    ∀ (fuel k : Nat) (s : SegwayRMP),
      (∀ j, j < fuel → (snapshotAt w k s.segway_status j).operational_mode ≠ m) →
      (pollOperationalMode w m fuel k s).1 = false := by
  intro fuel
  induction fuel with
  | zero => intro k s _; rfl
  | succ f ih =>
    intro k s hdiff
    have h0 := hdiff 0 (by omega)
    simp only [snapshotAt] at h0
    simp only [pollOperationalMode, ne_eq, h0, not_false_eq_true, if_true]
    apply ih
    intro j hj
    have := hdiff (j + 1) (by omega)
    simpa [snapshotAt] using this

theorem poll_left_only_when_equal (w : World) (m : Int) :
    ∀ (fuel k : Nat) (s : SegwayRMP), (pollOperationalMode w m fuel k s).1 = true →
      (pollOperationalMode w m fuel k s).2.segway_status.operational_mode = m := by
  intro fuel
  induction fuel with
  | zero => intro k s h; simp [pollOperationalMode] at h
  | succ f ih =>
    intro k s h
    by_cases hc : (w.readThread k s.segway_status).operational_mode = m
    · simp [pollOperationalMode, hc]
    · simp only [pollOperationalMode, ne_eq, hc, not_false_eq_true, if_true] at h ⊢
      exact ih _ _ h

theorem poll_sentFrames (w : World) (m : Int) :
    ∀ (fuel k : Nat) (s : SegwayRMP),
      sentFrames (pollOperationalMode w m fuel k s).2.trace = sentFrames s.trace := by
  intro fuel
  induction fuel with
  | zero => intro k s; rfl
  | succ f ih =>
    intro k s
    by_cases hc : (w.readThread k s.segway_status).operational_mode = m
    · simp [pollOperationalMode, hc]
    · simp only [pollOperationalMode, ne_eq, hc, not_false_eq_true, if_true]
      rw [ih]
      simp [sentFrames_append, sentFrames]

theorem setOperationalMode_connected (w : World) (s : SegwayRMP) (m : Int) (fuel : Nat)
    (hconn : s.connected = true) (hsend : w.sendThrows s.trace.length = none) :
    setOperationalMode w fuel s m =
      ((if (pollOperationalMode w m fuel 0 { s with trace := s.trace ++
            [Event.sendPacket (configFrame 0x10 (toUChar (intBits m)))] }).1
        then Outcome.returned else Outcome.polling),
       (pollOperationalMode w m fuel 0 { s with trace := s.trace ++
            [Event.sendPacket (configFrame 0x10 (toUChar (intBits m)))] }).2) := by
  unfold setOperationalMode
  rw [if_neg (by simp [hconn])]
  simp only [sendPacket, hsend]
  change (match pollOperationalMode w m fuel 0 { s with trace := s.trace ++
            [Event.sendPacket (configFrame 0x10 (toUChar (intBits m)))] } with
      | (true, s2) => (Outcome.returned, s2)
      | (false, s2) => (Outcome.polling, s2)) = _
  cases pollOperationalMode w m fuel 0 { s with trace := s.trace ++
            [Event.sendPacket (configFrame 0x10 (toUChar (intBits m)))] } with
  | mk fl s2 => cases fl <;> rfl

theorem setOperationalMode_confirmed (w : World) (s : SegwayRMP) (m : Int) (N fuel : Nat)
    (hconn : s.connected = true) (hsend : w.sendThrows s.trace.length = none)
    (hdiff : ∀ j, j < N → (snapshotAt w 0 s.segway_status j).operational_mode ≠ m)
    (heq : (snapshotAt w 0 s.segway_status N).operational_mode = m) (hf : N < fuel) :
    setOperationalMode w fuel s m = (Outcome.returned, { s with
      segway_status := snapshotAt w 0 s.segway_status N
      trace := s.trace ++ Event.sendPacket (configFrame 0x10 (toUChar (intBits m))) ::
        List.replicate N Event.sleep }) := by
  have hp := poll_confirmed w m N fuel 0
    { s with trace := s.trace ++ [Event.sendPacket (configFrame 0x10 (toUChar (intBits m)))] }
    hf hdiff heq
  rw [setOperationalMode_connected w s m fuel hconn hsend, hp]
  simp

theorem setControllerGainSchedule_connected (w : World) (s : SegwayRMP) (g : Int)
    (hconn : s.connected = true) (hsend : w.sendThrows s.trace.length = none) :
    setControllerGainSchedule w s g = (Outcome.returned, { s with
      trace := s.trace ++ [Event.sendPacket (configFrame 0x0D (toUChar (intBits g)))] }) := by
  unfold setControllerGainSchedule
  rw [if_neg (by simp [hconn])]
  simp only [sendPacket, hsend]
  rfl

theorem setBalanceModeLocking_connected (w : World) (s : SegwayRMP) (state : Bool)
    (hconn : s.connected = true) (hsend : w.sendThrows s.trace.length = none) :
    setBalanceModeLocking w s state = (Outcome.returned, { s with
      trace := s.trace ++ [Event.sendPacket (configFrame 0x0F (if state then 0x01 else 0x00))] }) := by
  unfold setBalanceModeLocking
  rw [if_neg (by simp [hconn])]
  simp only [sendPacket, hsend]
  rfl

theorem resetAllIntegrators_connected (w : World) (s : SegwayRMP)
    (hconn : s.connected = true) (hsend : ∀ k, w.sendThrows k = none) :
    resetAllIntegrators w s = (Outcome.returned, { s with
      trace := s.trace ++ [Event.sendPacket (configFrame 0x32 0x01),
        Event.sendPacket (configFrame 0x32 0x02), Event.sendPacket (configFrame 0x32 0x04),
        Event.sendPacket (configFrame 0x32 0x08)] }) := by
  unfold resetAllIntegrators
  rw [if_neg (by simp [hconn])]
  simp only [sendPacket, hsend, List.append_assoc, List.singleton_append]
  rfl

/-- C5: on a connected driver, when `lv = trunc(linear_velocity * MPS_TO_COUNTS)` and
`av = trunc(angular_velocity * 1024)` both lie in the signed 16-bit range, `move` hands exactly one
frame to the transport: identifier 0x0413, bytes 0-1 the big-endian two's-complement encoding of
`lv`, bytes 2-3 that of `av`, bytes 4-7 zero; it returns normally when the transport accepts the
frame. -/
theorem move_sends_one_encoded_frame (bld : Build) (w : World) (s : SegwayRMP)
    (linear_velocity angular_velocity : ℚ) (hconn : s.connected = true)
    (hlv : -32768 ≤ trunc (linear_velocity * bld.MPS_TO_COUNTS) ∧
      trunc (linear_velocity * bld.MPS_TO_COUNTS) ≤ 32767)
    (hav : -32768 ≤ trunc (angular_velocity * 1024) ∧ trunc (angular_velocity * 1024) ≤ 32767) :
    (move bld w s linear_velocity angular_velocity).2.trace = s.trace ++ [Event.sendPacket
      { Packet.fresh with
        id := 0x0413
        d0 := (specBigEndian16 (trunc (linear_velocity * bld.MPS_TO_COUNTS))).1
        d1 := (specBigEndian16 (trunc (linear_velocity * bld.MPS_TO_COUNTS))).2
        d2 := (specBigEndian16 (trunc (angular_velocity * 1024))).1
        d3 := (specBigEndian16 (trunc (angular_velocity * 1024))).2
        d4 := 0, d5 := 0, d6 := 0, d7 := 0 }] ∧
    (w.sendThrows s.trace.length = none →
      (move bld w s linear_velocity angular_velocity).1 = Outcome.returned) := by
  simp only [move, hconn, floatToShort, toShort_intBits _ hlv.1 hlv.2,
    toShort_intBits _ hav.1 hav.2, toUChar_high, toUChar_low, sendPacket]
  cases w.sendThrows s.trace.length <;> simp

theorem trunc_sample_linear : trunc ((-1 / 100 : ℚ) * Build.x86.MPS_TO_COUNTS) = -3 := by
  rw [trunc_of_nonpos _ (by norm_num [Build.x86]), Int.ceil_eq_iff]
  norm_num [Build.x86]

theorem trunc_sample_angular : trunc ((1 / 2 : ℚ) * 1024) = 512 := by
  rw [trunc_of_nonneg _ (by norm_num), Int.floor_eq_iff]
  norm_num

theorem move_sends_one_encoded_frame_witness :
    (move Build.x86 World.quiet SegwayRMP.ready (-1 / 100) (1 / 2)).2.trace
      = [Event.sendPacket ⟨0x0413, 0, 0xFF, 0xFD, 0x02, 0x00, 0, 0, 0, 0⟩] ∧
    (move Build.x86 World.quiet SegwayRMP.ready (-1 / 100) (1 / 2)).1 = Outcome.returned := by
  have h := move_sends_one_encoded_frame Build.x86 World.quiet SegwayRMP.ready (-1 / 100) (1 / 2)
    rfl (by rw [trunc_sample_linear]; decide) (by rw [trunc_sample_angular]; decide)
  rw [trunc_sample_linear, trunc_sample_angular] at h
  exact ⟨h.1, h.2 rfl⟩

/-- C6: on a connected driver whose transport accepts every send, `setOperationalMode`,
`setControllerGainSchedule` and `setBalanceModeLocking` each hand exactly one frame to the
transport: identifier 0x0413, byte 5 the selector (0x10, 0x0D, 0x0F), byte 7 the value (the integer
value of the mode, of the gain schedule, 0x01 or 0x00 for the lock state), bytes 0,1,2,3,4,6 zero.
For `setOperationalMode` this holds however long its poll runs. The value byte of an enumeration
is its integer value reduced modulo 256, the integer value itself for values 0..255. -/
theorem config_commands_send_one_frame (w : World) (s : SegwayRMP) (m g : Int) (state : Bool)
    (hconn : s.connected = true) (hsend : ∀ k, w.sendThrows k = none) :
    (∀ fuel, sentFrames (setOperationalMode w fuel s m).2.trace
        = sentFrames s.trace ++ [configFrame 0x10 (toUChar (intBits m))]) ∧
    setControllerGainSchedule w s g = (Outcome.returned, { s with
      trace := s.trace ++ [Event.sendPacket (configFrame 0x0D (toUChar (intBits g)))] }) ∧
    setBalanceModeLocking w s state = (Outcome.returned, { s with
      trace := s.trace ++ [Event.sendPacket (configFrame 0x0F (if state then 0x01 else 0x00))] }) ∧
    ((toUChar (intBits m)).val : Int) = m % 256 ∧ ((toUChar (intBits g)).val : Int) = g % 256 := by
  refine ⟨fun fuel => ?_, setControllerGainSchedule_connected w s g hconn (hsend _),
    setBalanceModeLocking_connected w s state hconn (hsend _), toUChar_intBits m,
    toUChar_intBits g⟩
  rw [setOperationalMode_connected w s m fuel hconn (hsend _), poll_sentFrames]
  simp [sentFrames_append, sentFrames]

theorem config_commands_send_one_frame_witness :
    sentFrames (setOperationalMode World.quiet 3 SegwayRMP.ready 1).2.trace
        = [configFrame 0x10 0x01] ∧
    setControllerGainSchedule World.quiet SegwayRMP.ready 2 = (Outcome.returned,
      { SegwayRMP.ready with trace := [Event.sendPacket (configFrame 0x0D 0x02)] }) ∧
    setBalanceModeLocking World.quiet SegwayRMP.ready true = (Outcome.returned,
      { SegwayRMP.ready with trace := [Event.sendPacket (configFrame 0x0F 0x01)] }) :=
  have h := config_commands_send_one_frame World.quiet SegwayRMP.ready 1 2 true rfl (fun _ => rfl)
  ⟨h.1 3, h.2.1, h.2.2.1⟩

/-- C7: on a connected driver whose transport accepts every send, `resetAllIntegrators` returns
normally after handing exactly four frames to the transport, with value byte 0x01, 0x02, 0x04,
0x08 in this order; each has identifier 0x0413, byte 5 equal to 0x32 and bytes 0,1,2,3,4,6 zero. -/
theorem resetAllIntegrators_sends_four (w : World) (s : SegwayRMP)
    (hconn : s.connected = true) (hsend : ∀ k, w.sendThrows k = none) :
    resetAllIntegrators w s = (Outcome.returned, { s with
      trace := s.trace ++ [Event.sendPacket (configFrame 0x32 0x01),
        Event.sendPacket (configFrame 0x32 0x02), Event.sendPacket (configFrame 0x32 0x04),
        Event.sendPacket (configFrame 0x32 0x08)] }) :=
  resetAllIntegrators_connected w s hconn hsend

theorem resetAllIntegrators_sends_four_witness :
    resetAllIntegrators World.quiet SegwayRMP.ready = (Outcome.returned, { SegwayRMP.ready with
      trace := [Event.sendPacket (configFrame 0x32 0x01),
        Event.sendPacket (configFrame 0x32 0x02), Event.sendPacket (configFrame 0x32 0x04),
        Event.sendPacket (configFrame 0x32 0x08)] }) :=
  resetAllIntegrators_sends_four World.quiet SegwayRMP.ready rfl (fun _ => rfl)

/-- C8: when the transport opens and accepts every send, and the mode change is confirmed at check
`N` of the polling loop, `connect` returns normally with the driver marked connected and the read
loop flag set; the calls it makes are, in this order: the transport is opened, the read thread is
launched, then exactly seven frames are sent (balance lock with value 0x00 if the mode is
`balanced` and 0x01 otherwise, operational mode, gain schedule, integrator resets 0x01, 0x02, 0x04,
0x08), with the `N` delays of the poll between the mode frame and the gain-schedule frame. -/
theorem connect_configures_in_order (bld : Build) (w : World) (s : SegwayRMP) (m g : Int) (N : Nat)
    (hopen : w.connectThrows = none) (hsend : ∀ k, w.sendThrows k = none)
    (hdiff : ∀ j, j < N → (snapshotAt w 0 s.segway_status j).operational_mode ≠ m)
    (heq : (snapshotAt w 0 s.segway_status N).operational_mode = m)
    (fuel : Nat) (hf : N < fuel) :
    connect bld w fuel s m g = (Outcome.returned,
      { connected := true
        continuous := true
        callback_execution_thread_status := s.callback_execution_thread_status
        segway_status := snapshotAt w 0 s.segway_status N
        trace := s.trace ++ ([Event.connect, Event.readContinuously,
            Event.sendPacket (configFrame 0x0F (if m = bld.balanced then 0x00 else 0x01)),
            Event.sendPacket (configFrame 0x10 (toUChar (intBits m)))]
          ++ List.replicate N Event.sleep
          ++ [Event.sendPacket (configFrame 0x0D (toUChar (intBits g))),
            Event.sendPacket (configFrame 0x32 0x01), Event.sendPacket (configFrame 0x32 0x02),
            Event.sendPacket (configFrame 0x32 0x04), Event.sendPacket (configFrame 0x32 0x08)]) }) ∧
    sentFrames (connect bld w fuel s m g).2.trace = sentFrames s.trace ++
      [configFrame 0x0F (if m = bld.balanced then 0x00 else 0x01),
        configFrame 0x10 (toUChar (intBits m)), configFrame 0x0D (toUChar (intBits g)),
        configFrame 0x32 0x01, configFrame 0x32 0x02, configFrame 0x32 0x04,
        configFrame 0x32 0x08] := by
  have key : connect bld w fuel s m g = (Outcome.returned,
      { connected := true
        continuous := true
        callback_execution_thread_status := s.callback_execution_thread_status
        segway_status := snapshotAt w 0 s.segway_status N
        trace := s.trace ++ ([Event.connect, Event.readContinuously,
            Event.sendPacket (configFrame 0x0F (if m = bld.balanced then 0x00 else 0x01)),
            Event.sendPacket (configFrame 0x10 (toUChar (intBits m)))]
          ++ List.replicate N Event.sleep
          ++ [Event.sendPacket (configFrame 0x0D (toUChar (intBits g))),
            Event.sendPacket (configFrame 0x32 0x01), Event.sendPacket (configFrame 0x32 0x02),
            Event.sendPacket (configFrame 0x32 0x04), Event.sendPacket (configFrame 0x32 0x08)]) }) := by
    unfold connect
    simp only [hopen, startContinuousRead]
    rw [setBalanceModeLocking_connected w ⟨true, _, _, _, _⟩ _ rfl (hsend _)]
    simp only []
    rw [setOperationalMode_confirmed w ⟨true, _, _, _, _⟩ m N fuel rfl (hsend _) hdiff heq hf]
    simp only []
    rw [setControllerGainSchedule_connected w ⟨true, _, _, _, _⟩ g rfl (hsend _)]
    simp only []
    rw [resetAllIntegrators_connected w ⟨true, _, _, _, _⟩ rfl hsend]
    by_cases hb : m = bld.balanced <;> simp [hb]
  refine ⟨key, ?_⟩
  rw [key]
  have hrep : ∀ n, sentFrames (List.replicate n Event.sleep) = [] := by
    intro n; induction n with
    | zero => rfl
    | succ n ih => simpa [List.replicate_succ, sentFrames] using ih
  simp [sentFrames_append, sentFrames, hrep]

theorem connect_configures_in_order_witness :
    (connect Build.x86 (World.confirming 2 1) 3 SegwayRMP.idle 1 0).1 = Outcome.returned ∧
    (connect Build.x86 (World.confirming 2 1) 3 SegwayRMP.idle 1 0).2.connected = true ∧
    (connect Build.x86 (World.confirming 2 1) 3 SegwayRMP.idle 1 0).2.trace =
      [Event.connect, Event.readContinuously, Event.sendPacket (configFrame 0x0F 0x01),
        Event.sendPacket (configFrame 0x10 0x01), Event.sleep, Event.sleep,
        Event.sendPacket (configFrame 0x0D 0x00), Event.sendPacket (configFrame 0x32 0x01),
        Event.sendPacket (configFrame 0x32 0x02), Event.sendPacket (configFrame 0x32 0x04),
        Event.sendPacket (configFrame 0x32 0x08)] := by
  have h := (connect_configures_in_order Build.x86 (World.confirming 2 1) SegwayRMP.idle 1 0 2
    rfl (fun _ => rfl) (by decide) (by decide) 3 (by decide)).1
  rw [h]
  exact ⟨rfl, rfl, rfl⟩

/-- C9: on a driver that is not connected, `move`, `setOperationalMode`,
`setControllerGainSchedule`, `setBalanceModeLocking` and `resetAllIntegrators` fail, for every
argument, with the exception of the function carrying the message "Not Connected."; the driver is
left as it was: no frame is handed to the transport and the snapshot is unchanged. -/
theorem commands_require_connection (bld : Build) (w : World) (s : SegwayRMP)
    (hconn : s.connected = false) :
    (∀ linear_velocity angular_velocity, move bld w s linear_velocity angular_velocity
        = (Outcome.threw (Exn.MoveFailedException "Not Connected."), s)) ∧
    (∀ fuel operational_mode, setOperationalMode w fuel s operational_mode
        = (Outcome.threw (Exn.ConfigurationException "Operational Mode" "Not Connected."), s)) ∧
    (∀ controller_gain_schedule, setControllerGainSchedule w s controller_gain_schedule
        = (Outcome.threw (Exn.ConfigurationException "Controller Gain Schedule" "Not Connected."),
            s)) ∧
    (∀ state, setBalanceModeLocking w s state
        = (Outcome.threw (Exn.ConfigurationException "Balance Mode Lock" "Not Connected."), s)) ∧
    resetAllIntegrators w s
        = (Outcome.threw (Exn.ConfigurationException "Integrators" "Not Connected."), s) := by
  refine ⟨fun _ _ => ?_, fun _ _ => ?_, fun _ => ?_, fun _ => ?_, ?_⟩
  · unfold move; rw [if_pos (by simp [hconn])]
  · unfold setOperationalMode; rw [if_pos (by simp [hconn])]
  · unfold setControllerGainSchedule; rw [if_pos (by simp [hconn])]
  · unfold setBalanceModeLocking; rw [if_pos (by simp [hconn])]
  · unfold resetAllIntegrators; rw [if_pos (by simp [hconn])]

theorem commands_require_connection_witness :
    move Build.x86 World.quiet SegwayRMP.idle 1 (-1)
        = (Outcome.threw (Exn.MoveFailedException "Not Connected."), SegwayRMP.idle) ∧
    setOperationalMode World.quiet 3 SegwayRMP.idle 1
        = (Outcome.threw (Exn.ConfigurationException "Operational Mode" "Not Connected."),
            SegwayRMP.idle) ∧
    setControllerGainSchedule World.quiet SegwayRMP.idle 2
        = (Outcome.threw (Exn.ConfigurationException "Controller Gain Schedule" "Not Connected."),
            SegwayRMP.idle) ∧
    setBalanceModeLocking World.quiet SegwayRMP.idle true
        = (Outcome.threw (Exn.ConfigurationException "Balance Mode Lock" "Not Connected."),
            SegwayRMP.idle) ∧
    resetAllIntegrators World.quiet SegwayRMP.idle
        = (Outcome.threw (Exn.ConfigurationException "Integrators" "Not Connected."),
            SegwayRMP.idle) :=
  have h := commands_require_connection Build.x86 World.quiet SegwayRMP.idle rfl
  ⟨h.1 1 (-1), h.2.1 3 1, h.2.2.1 2, h.2.2.2.1 true, h.2.2.2.2⟩

/-- C10: on a connected driver whose transport accepts the mode frame, when the operational mode
that the poll reads differs from the requested mode on the first `N` checks and equals it on check
`N + 1`, `setOperationalMode` hands its frame to the transport once, makes exactly `N` delays and
returns normally (with any allowance of more than `N` checks); with an allowance of `N` checks or
fewer it is still polling. Whatever the transport and the read thread do, it returns normally only
with a snapshot whose operational mode equals the requested mode. -/
theorem setOperationalMode_polls_until_confirmed (w : World) (s : SegwayRMP) (m : Int) (N : Nat)
    (hconn : s.connected = true) (hsend : w.sendThrows s.trace.length = none)
    (hdiff : ∀ j, j < N → (snapshotAt w 0 s.segway_status j).operational_mode ≠ m)
    (heq : (snapshotAt w 0 s.segway_status N).operational_mode = m) :
    (∀ fuel, N < fuel → setOperationalMode w fuel s m = (Outcome.returned, { s with
      segway_status := snapshotAt w 0 s.segway_status N
      trace := s.trace ++ Event.sendPacket (configFrame 0x10 (toUChar (intBits m))) ::
        List.replicate N Event.sleep })) ∧
    (∀ fuel, fuel ≤ N → (setOperationalMode w fuel s m).1 = Outcome.polling) ∧
    (∀ (w1 : World) (s1 : SegwayRMP) (fuel : Nat),
      (setOperationalMode w1 fuel s1 m).1 = Outcome.returned →
      (setOperationalMode w1 fuel s1 m).2.segway_status.operational_mode = m) := by
  refine ⟨fun fuel hf => setOperationalMode_confirmed w s m N fuel hconn hsend hdiff heq hf,
    fun fuel hf => ?_, fun w1 s1 fuel => ?_⟩
  · have hp := poll_unconfirmed w m fuel 0
      { s with trace := s.trace ++ [Event.sendPacket (configFrame 0x10 (toUChar (intBits m)))] }
      (fun j hj => hdiff j (by omega))
    rw [setOperationalMode_connected w s m fuel hconn hsend, hp]
    simp
  · cases hc : s1.connected
    · unfold setOperationalMode
      rw [if_pos (by simp [hc])]
      simp
    · cases hs : w1.sendThrows s1.trace.length
      · rw [setOperationalMode_connected w1 s1 m fuel hc hs]
        intro h
        apply poll_left_only_when_equal
        revert h
        cases (pollOperationalMode w1 m fuel 0 _).1 <;> simp
      · unfold setOperationalMode
        rw [if_neg (by simp [hc])]
        simp [sendPacket, hs]

theorem setOperationalMode_polls_until_confirmed_witness :
    setOperationalMode (World.confirming 2 1) 3 SegwayRMP.ready 1 = (Outcome.returned,
      { SegwayRMP.ready with
        segway_status := { SegwayStatus.zero with operational_mode := 1 }
        trace := [Event.sendPacket (configFrame 0x10 0x01), Event.sleep, Event.sleep] }) ∧
    (setOperationalMode (World.confirming 2 1) 2 SegwayRMP.ready 1).1 = Outcome.polling :=
  have h := setOperationalMode_polls_until_confirmed (World.confirming 2 1) SegwayRMP.ready 1 2
    rfl rfl (by decide) (by decide)
  ⟨h.1 3 (by decide), h.2.1 2 (by decide)⟩

/-- The hypotheses of the polling theorems are met by the decoder itself: when the read thread
decodes a 0x0406 frame whose bytes 0-1 carry mode 1 just before the third check, the call returns
after one frame and two delays. -/
theorem setOperationalMode_confirmed_by_frame :
    (setOperationalMode (World.reading Build.x86 fun k =>
        if k = 2 then [⟨0x0406, 0xAA, 0x00, 0x01, 0, 0, 0, 0, 0, 0⟩] else [])
      3 SegwayRMP.ready 1).1 = Outcome.returned ∧
    (setOperationalMode (World.reading Build.x86 fun k =>
        if k = 2 then [⟨0x0406, 0xAA, 0x00, 0x01, 0, 0, 0, 0, 0, 0⟩] else [])
      3 SegwayRMP.ready 1).2.trace
      = [Event.sendPacket (configFrame 0x10 0x01), Event.sleep, Event.sleep] := by
  have h := setOperationalMode_confirmed (World.reading Build.x86 fun k =>
        if k = 2 then [⟨0x0406, 0xAA, 0x00, 0x01, 0, 0, 0, 0, 0, 0⟩] else [])
    SegwayRMP.ready 1 2 3 rfl rfl (by decide) (by decide) (by decide)
  rw [h]
  exact ⟨rfl, rfl⟩

/-! ### The decoder, case by case -/

theorem parsePacket_0x0401 (bld : Build) (p : Packet) (st : SegwayStatus)
    (hch : p.channel ≠ 0xBB) (hid : p.id = 0x0401) :
    _parsePacket bld p st = (false, { st with
      pitch := (getShortInt bld p.d0 p.d1 : ℚ) / (78 / 10)
      pitch_rate := (getShortInt bld p.d2 p.d3 : ℚ) / (778 / 100)
      roll := (getShortInt bld p.d4 p.d5 : ℚ) / (778 / 100)
      roll_rate := (getShortInt bld p.d6 p.d7 : ℚ) / (778 / 100)
      touched := true }) := by
  simp [_parsePacket, hch, hid]

theorem parsePacket_0x0402 (bld : Build) (p : Packet) (st : SegwayStatus)
    (hch : p.channel ≠ 0xBB) (hid : p.id = 0x0402) :
    _parsePacket bld p st = (false, { st with
      left_wheel_speed := (getShortInt bld p.d0 p.d1 : ℚ) / 332
      right_wheel_speed := (getShortInt bld p.d0 p.d1 : ℚ) / 332
      yaw_rate := (getShortInt bld p.d0 p.d1 : ℚ) / (78 / 10)
      servo_frames := (getUShort p.d6 p.d7 : ℚ) * (1 / 100)
      touched := true }) := by
  simp [_parsePacket, hch, hid]

theorem parsePacket_0x0403 (bld : Build) (p : Packet) (st : SegwayStatus)
    (hch : p.channel ≠ 0xBB) (hid : p.id = 0x0403) :
    _parsePacket bld p st = (false, { st with
      integrated_left_wheel_position := (getInt bld p.d0 p.d1 p.d2 p.d3 : ℚ) / 33215
      integrated_right_wheel_position := (getInt bld p.d4 p.d5 p.d6 p.d7 : ℚ) / 33215
      touched := true }) := by
  simp [_parsePacket, hch, hid]

theorem parsePacket_0x0404 (bld : Build) (p : Packet) (st : SegwayStatus)
    (hch : p.channel ≠ 0xBB) (hid : p.id = 0x0404) :
    _parsePacket bld p st = (false, { st with
      integrated_forward_position := (getInt bld p.d0 p.d1 p.d2 p.d3 : ℚ) / 33215
      integrated_turn_position := (getInt bld p.d4 p.d5 p.d6 p.d7 : ℚ) / 112644
      touched := true }) := by
  simp [_parsePacket, hch, hid]

theorem parsePacket_0x0405 (bld : Build) (p : Packet) (st : SegwayStatus)
    (hch : p.channel ≠ 0xBB) (hid : p.id = 0x0405) :
    _parsePacket bld p st = (false, { st with
      left_motor_torque := (getShortInt bld p.d0 p.d1 : ℚ) / 1094
      right_motor_torque := (getShortInt bld p.d0 p.d1 : ℚ) / 1094
      touched := true }) := by
  simp [_parsePacket, hch, hid]

theorem parsePacket_0x0406 (bld : Build) (p : Packet) (st : SegwayStatus)
    (hch : p.channel ≠ 0xBB) (hid : p.id = 0x0406) :
    _parsePacket bld p st = (false, { st with
      operational_mode := getShortInt bld p.d0 p.d1
      controller_gain_schedule := getShortInt bld p.d0 p.d1
      ui_battery_voltage := (getUShort p.d4 p.d5 : ℚ) * (125 / 10000) + 14 / 10
      powerbase_battery_voltage := (getUShort p.d6 p.d7 : ℚ) / 4
      touched := true }) := by
  simp [_parsePacket, hch, hid]

theorem parsePacket_0x0407 (bld : Build) (p : Packet) (st : SegwayStatus)
    (hch : p.channel ≠ 0xBB) (hid : p.id = 0x0407) :
    _parsePacket bld p st = (true, { st with
      commanded_velocity := (getShortInt bld p.d0 p.d1 : ℚ) / bld.MPS_TO_COUNTS
      commanded_yaw_rate := (getShortInt bld p.d0 p.d1 : ℚ) / 1024
      touched := true }) := by
  simp [_parsePacket, hch, hid]

theorem parsePacket_0x0680 (bld : Build) (p : Packet) (st : SegwayStatus)
    (hch : p.channel ≠ 0xBB) (hid : p.id = 0x0680) :
    _parsePacket bld p st = (false, { st with
      motor_status := if p.d3 = 0x80 then 1 else 0
      touched := true }) := by
  simp [_parsePacket, hch, hid]

theorem parsePacket_unhandled (bld : Build) (p : Packet) (st : SegwayStatus)
    (h1 : p.id ≠ 0x0401) (h2 : p.id ≠ 0x0402) (h3 : p.id ≠ 0x0403) (h4 : p.id ≠ 0x0404)
    (h5 : p.id ≠ 0x0405) (h6 : p.id ≠ 0x0406) (h7 : p.id ≠ 0x0407) (h8 : p.id ≠ 0x0680) :
    _parsePacket bld p st = (false, st) := by
  simp [_parsePacket, h1, h2, h3, h4, h5, h6, h7, h8]

theorem getUShort_eq (x y : Byte) : getUShort x y = 256 * x.val + y.val := by
  have hx := x.isLt
  have hy := y.isLt
  have e1 : x.val &&& 0x0ff = x.val := by
    have := Nat.and_pow_two_sub_one_eq_mod x.val 8
    simp only [show (2 : Nat) ^ 8 - 1 = 0x0ff from rfl, show (2 : Nat) ^ 8 = 256 from rfl] at this
    rw [this]; omega
  have e2 : y.val &&& 0x0ff = y.val := by
    have := Nat.and_pow_two_sub_one_eq_mod y.val 8
    simp only [show (2 : Nat) ^ 8 - 1 = 0x0ff from rfl, show (2 : Nat) ^ 8 = 256 from rfl] at this
    rw [this]; omega
  have e3 : ∀ n : Nat, n &&& 0x0ffff = n % 65536 := fun n =>
    Nat.and_pow_two_sub_one_eq_mod n 16
  unfold getUShort
  rw [e1, e2, shl32_byte x 8 (by decide), Nat.shiftLeft_eq, e3]
  have e4 : x.val * 2 ^ 8 = 256 * x.val := by omega
  rw [e4, mul256_or _ _ hy]
  omega

theorem parsePacket_0xBB (bld : Build) (p : Packet) (st : SegwayStatus)
    (hch : p.channel = 0xBB) : _parsePacket bld p st = (false, st) := by
  simp [_parsePacket, hch]

theorem parsePacket_flag (bld : Build) (p : Packet) (st : SegwayStatus) :
    (_parsePacket bld p st).1 = decide (p.channel ≠ 0xBB ∧ p.id = 0x0407) := by
  by_cases hch : p.channel = 0xBB
  · rw [parsePacket_0xBB bld p st hch]; simp [hch]
  · simp only [_parsePacket, apply_ite Prod.fst, if_neg hch]
    split_ifs <;> simp [*]

theorem field_kept (bld : Build) (p : Packet) (st : SegwayStatus) (f : Field)
    (h : f ∉ writtenFields p) : (_parsePacket bld p st).2.get f = st.get f := by
  by_cases hch : p.channel = 0xBB
  · rw [parsePacket_0xBB bld p st hch]
  by_cases h1 : p.id = 0x0401
  · rw [parsePacket_0x0401 bld p st hch h1]
    cases f <;> simp [writtenFields, hch, h1, SegwayStatus.get] at h ⊢
  by_cases h2 : p.id = 0x0402
  · rw [parsePacket_0x0402 bld p st hch h2]
    cases f <;> simp [writtenFields, hch, h2, SegwayStatus.get] at h ⊢
  by_cases h3 : p.id = 0x0403
  · rw [parsePacket_0x0403 bld p st hch h3]
    cases f <;> simp [writtenFields, hch, h3, SegwayStatus.get] at h ⊢
  by_cases h4 : p.id = 0x0404
  · rw [parsePacket_0x0404 bld p st hch h4]
    cases f <;> simp [writtenFields, hch, h4, SegwayStatus.get] at h ⊢
  by_cases h5 : p.id = 0x0405
  · rw [parsePacket_0x0405 bld p st hch h5]
    cases f <;> simp [writtenFields, hch, h5, SegwayStatus.get] at h ⊢
  by_cases h6 : p.id = 0x0406
  · rw [parsePacket_0x0406 bld p st hch h6]
    cases f <;> simp [writtenFields, hch, h6, SegwayStatus.get] at h ⊢
  by_cases h7 : p.id = 0x0407
  · rw [parsePacket_0x0407 bld p st hch h7]
    cases f <;> simp [writtenFields, hch, h7, SegwayStatus.get] at h ⊢
  by_cases h8 : p.id = 0x0680
  · rw [parsePacket_0x0680 bld p st hch h8]
    cases f <;> simp [writtenFields, hch, h8, SegwayStatus.get] at h ⊢
  rw [parsePacket_unhandled bld p st h1 h2 h3 h4 h5 h6 h7 h8]

theorem field_decoded (bld : Build) (p : Packet) (st1 st2 : SegwayStatus) (f : Field)
    (h : f ∈ writtenFields p) :
    (_parsePacket bld p st1).2.get f = (_parsePacket bld p st2).2.get f := by
  by_cases hch : p.channel = 0xBB
  · simp [writtenFields, hch] at h
  by_cases h1 : p.id = 0x0401
  · rw [parsePacket_0x0401 bld p st1 hch h1, parsePacket_0x0401 bld p st2 hch h1]
    cases f <;> simp [writtenFields, hch, h1, SegwayStatus.get] at h ⊢
  by_cases h2 : p.id = 0x0402
  · rw [parsePacket_0x0402 bld p st1 hch h2, parsePacket_0x0402 bld p st2 hch h2]
    cases f <;> simp [writtenFields, hch, h2, SegwayStatus.get] at h ⊢
  by_cases h3 : p.id = 0x0403
  · rw [parsePacket_0x0403 bld p st1 hch h3, parsePacket_0x0403 bld p st2 hch h3]
    cases f <;> simp [writtenFields, hch, h3, SegwayStatus.get] at h ⊢
  by_cases h4 : p.id = 0x0404
  · rw [parsePacket_0x0404 bld p st1 hch h4, parsePacket_0x0404 bld p st2 hch h4]
    cases f <;> simp [writtenFields, hch, h4, SegwayStatus.get] at h ⊢
  by_cases h5 : p.id = 0x0405
  · rw [parsePacket_0x0405 bld p st1 hch h5, parsePacket_0x0405 bld p st2 hch h5]
    cases f <;> simp [writtenFields, hch, h5, SegwayStatus.get] at h ⊢
  by_cases h6 : p.id = 0x0406
  · rw [parsePacket_0x0406 bld p st1 hch h6, parsePacket_0x0406 bld p st2 hch h6]
    cases f <;> simp [writtenFields, hch, h6, SegwayStatus.get] at h ⊢
  by_cases h7 : p.id = 0x0407
  · rw [parsePacket_0x0407 bld p st1 hch h7, parsePacket_0x0407 bld p st2 hch h7]
    cases f <;> simp [writtenFields, hch, h7, SegwayStatus.get] at h ⊢
  by_cases h8 : p.id = 0x0680
  · rw [parsePacket_0x0680 bld p st1 hch h8, parsePacket_0x0680 bld p st2 hch h8]
    cases f <;> simp [writtenFields, hch, h8, SegwayStatus.get] at h ⊢
  simp [writtenFields, hch, h1, h2, h3, h4, h5, h6, h7, h8] at h

theorem parseAll_append (bld : Build) (a b : List Packet) (st : SegwayStatus) :
    parseAll bld (a ++ b) st
      = ((parseAll bld a st).1 ++ (parseAll bld b (parseAll bld a st).2).1,
          (parseAll bld b (parseAll bld a st).2).2) := by
  induction a generalizing st with
  | nil => rfl
  | cons p ps ih => simp [parseAll, ih]

theorem parseAll_flags_false (bld : Build) (frames : List Packet) (st : SegwayStatus)
    (hid : ∀ p ∈ frames, p.id ≠ 0x0407) :
    (parseAll bld frames st).1 = List.replicate frames.length false := by
  induction frames generalizing st with
  | nil => rfl
  | cons p ps ih =>
    have hp : p.id ≠ 0x0407 := hid p (List.mem_cons_self _ _)
    have hps : ∀ q ∈ ps, q.id ≠ 0x0407 := fun q hq => hid q (List.mem_cons_of_mem _ hq)
    simp [parseAll, parsePacket_flag, hp, ih _ hps, List.replicate_succ]

theorem lastWriter_snoc (f : Field) (frames : List Packet) (p : Packet) :
    lastWriter f (frames ++ [p])
      = if f ∈ writtenFields p then some p else lastWriter f frames := by
  simp [lastWriter, List.find?_cons]
  split <;> simp_all

theorem parseAll_field (bld : Build) (frames : List Packet) (st : SegwayStatus) (f : Field) :
    (parseAll bld frames st).2.get f =
      match lastWriter f frames with
      | some p => (_parsePacket bld p st).2.get f
      | none => st.get f := by
  induction frames using List.reverseRecOn with
  | nil => rfl
  | append_singleton l p ih =>
    rw [parseAll_append, lastWriter_snoc]
    simp only [parseAll]
    by_cases hw : f ∈ writtenFields p
    · rw [if_pos hw]
      exact field_decoded bld p _ st f hw
    · rw [if_neg hw, field_kept bld p _ f hw]
      exact ih

/-! ### Claims about the decoder -/

/-- C11: for a sequence of frames whose identifiers all differ from 0x0407, followed by one
telemetry-channel frame with identifier 0x0407, `_parsePacket` applied in arrival order returns
false for every frame but the last and true for the last; each field of the final snapshot holds
the value decoded from the last frame of the sequence that writes the field, or its starting value
when no frame writes it. The value that a frame decodes into a field it writes does not depend on
the snapshot it is decoded into. -/
theorem cycle_closes_once (bld : Build) (frames : List Packet) (last : Packet) (st : SegwayStatus)
    (hid : ∀ p ∈ frames, p.id ≠ 0x0407) (hlc : last.channel ≠ 0xBB) (hli : last.id = 0x0407) :
    (parseAll bld (frames ++ [last]) st).1 = List.replicate frames.length false ++ [true] ∧
    (∀ f : Field, (parseAll bld (frames ++ [last]) st).2.get f =
      match lastWriter f (frames ++ [last]) with
      | some p => (_parsePacket bld p st).2.get f
      | none => st.get f) ∧
    (∀ (f : Field) (p : Packet) (st1 st2 : SegwayStatus), f ∈ writtenFields p →
      (_parsePacket bld p st1).2.get f = (_parsePacket bld p st2).2.get f) := by
  refine ⟨?_, fun f => parseAll_field bld _ st f,
    fun f p st1 st2 h => field_decoded bld p st1 st2 f h⟩
  rw [parseAll_append, parseAll_flags_false bld frames st hid]
  simp [parseAll, parsePacket_flag, hlc, hli]

theorem cycle_closes_once_witness :
    (parseAll Build.x86
      [⟨0x0401, 0xAA, 0, 1, 0, 2, 0, 3, 0, 4⟩, ⟨0x0406, 0xAA, 0, 1, 0, 0, 0, 8, 0, 4⟩,
        ⟨0x0401, 0xAA, 0, 5, 0, 6, 0, 7, 0, 8⟩, ⟨0x0407, 0xAA, 0, 9, 0, 0, 0, 0, 0, 0⟩]
      SegwayStatus.zero).1 = [false, false, false, true] ∧
    (parseAll Build.x86
      [⟨0x0401, 0xAA, 0, 1, 0, 2, 0, 3, 0, 4⟩, ⟨0x0406, 0xAA, 0, 1, 0, 0, 0, 8, 0, 4⟩,
        ⟨0x0401, 0xAA, 0, 5, 0, 6, 0, 7, 0, 8⟩, ⟨0x0407, 0xAA, 0, 9, 0, 0, 0, 0, 0, 0⟩]
      SegwayStatus.zero).2.get Field.pitch
      = (_parsePacket Build.x86 ⟨0x0401, 0xAA, 0, 5, 0, 6, 0, 7, 0, 8⟩
          SegwayStatus.zero).2.get Field.pitch ∧
    (parseAll Build.x86
      [⟨0x0401, 0xAA, 0, 1, 0, 2, 0, 3, 0, 4⟩, ⟨0x0406, 0xAA, 0, 1, 0, 0, 0, 8, 0, 4⟩,
        ⟨0x0401, 0xAA, 0, 5, 0, 6, 0, 7, 0, 8⟩, ⟨0x0407, 0xAA, 0, 9, 0, 0, 0, 0, 0, 0⟩]
      SegwayStatus.zero).2.get Field.motor_status = SegwayStatus.zero.get Field.motor_status :=
  have h := cycle_closes_once Build.x86
    [⟨0x0401, 0xAA, 0, 1, 0, 2, 0, 3, 0, 4⟩, ⟨0x0406, 0xAA, 0, 1, 0, 0, 0, 8, 0, 4⟩,
      ⟨0x0401, 0xAA, 0, 5, 0, 6, 0, 7, 0, 8⟩]
    ⟨0x0407, 0xAA, 0, 9, 0, 0, 0, 0, 0, 0⟩ SegwayStatus.zero (by decide) (by decide) rfl
  ⟨h.1, h.2.1 Field.pitch, h.2.1 Field.motor_status⟩

/-- C12: for a 0x0406 telemetry frame the UI battery voltage is `(256*d4 + d5) * 0.0125 + 1.4` and
the powerbase battery voltage is `(256*d6 + d7) / 4`; for a 0x0402 telemetry frame the servo frame
count is `(256*d6 + d7) * 0.01`. The combine is the unsigned big-endian value, at most 65535, so
the UI voltage is never below 1.4 and the powerbase voltage never below 0. -/
theorem unsigned_fields_plain_big_endian (bld : Build) (p : Packet) (st : SegwayStatus)
    (hch : p.channel ≠ 0xBB) :
    (p.id = 0x0406 →
      (_parsePacket bld p st).2.ui_battery_voltage
          = ((256 * p.d4.val + p.d5.val : Nat) : ℚ) * (125 / 10000) + 14 / 10 ∧
        (_parsePacket bld p st).2.powerbase_battery_voltage
          = ((256 * p.d6.val + p.d7.val : Nat) : ℚ) / 4 ∧
        14 / 10 ≤ (_parsePacket bld p st).2.ui_battery_voltage ∧
        0 ≤ (_parsePacket bld p st).2.powerbase_battery_voltage) ∧
    (p.id = 0x0402 →
      (_parsePacket bld p st).2.servo_frames
          = ((256 * p.d6.val + p.d7.val : Nat) : ℚ) * (1 / 100)) ∧
    (∀ x y : Byte, getUShort x y = 256 * x.val + y.val ∧ getUShort x y ≤ 65535) := by
  refine ⟨fun hid => ?_, fun hid => ?_, fun x y => ?_⟩
  · rw [parsePacket_0x0406 bld p st hch hid]
    simp only [getUShort_eq]
    refine ⟨trivial, trivial, ?_, ?_⟩
    · have : (0 : ℚ) ≤ ((256 * p.d4.val + p.d5.val : Nat) : ℚ) := Nat.cast_nonneg _
      linarith
    · have : (0 : ℚ) ≤ ((256 * p.d6.val + p.d7.val : Nat) : ℚ) := Nat.cast_nonneg _
      linarith
  · rw [parsePacket_0x0402 bld p st hch hid]
    simp only [getUShort_eq]
  · have hx := x.isLt
    have hy := y.isLt
    rw [getUShort_eq]
    exact ⟨rfl, by omega⟩

theorem unsigned_fields_plain_big_endian_witness :
    (_parsePacket Build.x86 ⟨0x0406, 0xAA, 0, 1, 0, 0, 0xFF, 0xFE, 0x80, 0x81⟩
        SegwayStatus.zero).2.ui_battery_voltage
      = ((256 * (0xFF : Byte).val + (0xFE : Byte).val : Nat) : ℚ) * (125 / 10000) + 14 / 10 ∧
    (_parsePacket Build.x86 ⟨0x0406, 0xAA, 0, 1, 0, 0, 0xFF, 0xFE, 0x80, 0x81⟩
        SegwayStatus.zero).2.powerbase_battery_voltage
      = ((256 * (0x80 : Byte).val + (0x81 : Byte).val : Nat) : ℚ) / 4 :=
  have h := (unsigned_fields_plain_big_endian Build.x86
    ⟨0x0406, 0xAA, 0, 1, 0, 0, 0xFF, 0xFE, 0x80, 0x81⟩ SegwayStatus.zero (by decide)).1 rfl
  ⟨h.1, h.2.1⟩

/-- C18: a 0x0680 telemetry frame sets the motor status to enabled (1) exactly when payload byte 3
is 0x80 and to emergency-stopped (0) for every other value, sets `touched`, leaves every other
field as it was, and `_parsePacket` returns false. -/
theorem motor_status_frame (bld : Build) (p : Packet) (st : SegwayStatus)
    (hch : p.channel ≠ 0xBB) (hid : p.id = 0x0680) :
    _parsePacket bld p st
        = (false, { st with motor_status := if p.d3 = 0x80 then 1 else 0, touched := true }) ∧
    ((_parsePacket bld p st).2.motor_status = 1 ↔ p.d3 = 0x80) ∧
    (p.d3 ≠ 0x80 → (_parsePacket bld p st).2.motor_status = 0) := by
  rw [parsePacket_0x0680 bld p st hch hid]
  refine ⟨rfl, ?_, ?_⟩
  · by_cases h : p.d3 = 0x80 <;> simp [h]
  · intro h; simp [h]

theorem motor_status_frame_witness :
    _parsePacket Build.x86 ⟨0x0680, 0xAA, 0, 0, 0, 0x80, 0, 0, 0, 0⟩ SegwayStatus.zero
      = (false, { SegwayStatus.zero with motor_status := 1, touched := true }) :=
  (motor_status_frame Build.x86 ⟨0x0680, 0xAA, 0, 0, 0, 0x80, 0, 0, 0, 0⟩ SegwayStatus.zero
    (by decide) rfl).1

/-- C19: a frame, on either channel, whose identifier is none of 0x0401..0x0407 and 0x0680 (this
includes 0x0400) is accepted and ignored: `_parsePacket` returns false and the snapshot, `touched`
included, is the one it was given. -/
theorem unhandled_identifier_ignored (bld : Build) (p : Packet) (st : SegwayStatus)
    (h1 : p.id ≠ 0x0401) (h2 : p.id ≠ 0x0402) (h3 : p.id ≠ 0x0403) (h4 : p.id ≠ 0x0404)
    (h5 : p.id ≠ 0x0405) (h6 : p.id ≠ 0x0406) (h7 : p.id ≠ 0x0407) (h8 : p.id ≠ 0x0680) :
    _parsePacket bld p st = (false, st) :=
  parsePacket_unhandled bld p st h1 h2 h3 h4 h5 h6 h7 h8

theorem unhandled_identifier_ignored_witness :
    _parsePacket Build.x86 ⟨0x0400, 0xAA, 1, 2, 3, 4, 5, 6, 7, 8⟩ SegwayStatus.zero
        = (false, SegwayStatus.zero) ∧
    _parsePacket Build.x86 ⟨0x0999, 0xAA, 1, 2, 3, 4, 5, 6, 7, 8⟩ SegwayStatus.zero
        = (false, SegwayStatus.zero) :=
  ⟨unhandled_identifier_ignored Build.x86 ⟨0x0400, 0xAA, 1, 2, 3, 4, 5, 6, 7, 8⟩ SegwayStatus.zero
      (by decide) (by decide) (by decide) (by decide) (by decide) (by decide) (by decide)
      (by decide),
    unhandled_identifier_ignored Build.x86 ⟨0x0999, 0xAA, 1, 2, 3, 4, 5, 6, 7, 8⟩ SegwayStatus.zero
      (by decide) (by decide) (by decide) (by decide) (by decide) (by decide) (by decide)
      (by decide)⟩

/-- What the decoder computes for the paired fields, on every build: a 0x0402 telemetry frame sets
the left and the right wheel speed to `getShortInt(data[0], data[1]) / 332`, a 0x0405 frame sets
the left and the right motor torque to `getShortInt(data[0], data[1]) / 1094`, a 0x0406 frame sets
the operational mode and the controller gain schedule to `getShortInt(data[0], data[1])`. That
value is the signed-16 combine of the specification when plain `char` is unsigned or byte 1 is
below 0x80. Replacing bytes 2..5 of a 0x0402 or 0x0405 frame, or bytes 2..3 of a 0x0406 frame, by
any other values changes nothing in the result. -/
theorem paired_fields_decoded (bld : Build) (p : Packet) (st : SegwayStatus)
    (hch : p.channel ≠ 0xBB) :
    (p.id = 0x0402 →
      (_parsePacket bld p st).2.left_wheel_speed = (getShortInt bld p.d0 p.d1 : ℚ) / 332 ∧
      (_parsePacket bld p st).2.right_wheel_speed = (getShortInt bld p.d0 p.d1 : ℚ) / 332 ∧
      ∀ x2 x3 x4 x5 : Byte,
        _parsePacket bld { p with d2 := x2, d3 := x3, d4 := x4, d5 := x5 } st
          = _parsePacket bld p st) ∧
    (p.id = 0x0405 →
      (_parsePacket bld p st).2.left_motor_torque = (getShortInt bld p.d0 p.d1 : ℚ) / 1094 ∧
      (_parsePacket bld p st).2.right_motor_torque = (getShortInt bld p.d0 p.d1 : ℚ) / 1094 ∧
      ∀ x2 x3 x4 x5 : Byte,
        _parsePacket bld { p with d2 := x2, d3 := x3, d4 := x4, d5 := x5 } st
          = _parsePacket bld p st) ∧
    (p.id = 0x0406 →
      (_parsePacket bld p st).2.operational_mode = getShortInt bld p.d0 p.d1 ∧
      (_parsePacket bld p st).2.controller_gain_schedule = getShortInt bld p.d0 p.d1 ∧
      (bld.charSigned = false ∨ p.d1.val < 128 →
        (_parsePacket bld p st).2.operational_mode = specSigned16 p.d0 p.d1 ∧
        (_parsePacket bld p st).2.controller_gain_schedule = specSigned16 p.d0 p.d1) ∧
      ∀ x2 x3 : Byte,
        _parsePacket bld { p with d2 := x2, d3 := x3 } st = _parsePacket bld p st) := by
  refine ⟨fun hid => ?_, fun hid => ?_, fun hid => ?_⟩
  · refine ⟨by rw [parsePacket_0x0402 bld p st hch hid],
      by rw [parsePacket_0x0402 bld p st hch hid], fun x2 x3 x4 x5 => ?_⟩
    rw [parsePacket_0x0402 bld p st hch hid,
      parsePacket_0x0402 bld { p with d2 := x2, d3 := x3, d4 := x4, d5 := x5 } st hch hid]
  · refine ⟨by rw [parsePacket_0x0405 bld p st hch hid],
      by rw [parsePacket_0x0405 bld p st hch hid], fun x2 x3 x4 x5 => ?_⟩
    rw [parsePacket_0x0405 bld p st hch hid,
      parsePacket_0x0405 bld { p with d2 := x2, d3 := x3, d4 := x4, d5 := x5 } st hch hid]
  · refine ⟨by rw [parsePacket_0x0406 bld p st hch hid],
      by rw [parsePacket_0x0406 bld p st hch hid], fun h => ?_, fun x2 x3 => ?_⟩
    · rw [parsePacket_0x0406 bld p st hch hid]
      exact ⟨getShortInt_eq_spec bld p.d0 p.d1 h, getShortInt_eq_spec bld p.d0 p.d1 h⟩
    · rw [parsePacket_0x0406 bld p st hch hid,
        parsePacket_0x0406 bld { p with d2 := x2, d3 := x3 } st hch hid]

/-- C20, at an input where the code departs from the claim: on a build whose plain `char` is
signed, after the 0x0406 telemetry frame whose bytes 0-1 are 0x12, 0x80 the controller gain
schedule equals the operational mode, but both are -128, while the signed-16 combine of bytes 0-1
(the big-endian value 0x1280 read as two's complement) is 4736. The 0x0402 and 0x0405 frames with
the same bytes 0-1 give equal wheel speeds -128/332 and equal motor torques -128/1094, computed
from the same -128. -/
theorem paired_fields_sign_extended (m : ℚ) (b : Int) (st : SegwayStatus) :
    (_parsePacket ⟨true, m, b⟩ ⟨0x0406, 0xAA, 0x12, 0x80, 0, 0, 0, 0, 0, 0⟩
        st).2.operational_mode = -128 ∧
    (_parsePacket ⟨true, m, b⟩ ⟨0x0406, 0xAA, 0x12, 0x80, 0, 0, 0, 0, 0, 0⟩
        st).2.controller_gain_schedule = -128 ∧
    specSigned16 0x12 0x80 = 4736 ∧
    (_parsePacket ⟨true, m, b⟩ ⟨0x0406, 0xAA, 0x12, 0x80, 0, 0, 0, 0, 0, 0⟩
        st).2.operational_mode ≠ specSigned16 0x12 0x80 ∧
    (_parsePacket ⟨true, m, b⟩ ⟨0x0402, 0xAA, 0x12, 0x80, 0, 0, 0, 0, 0, 0⟩
        st).2.left_wheel_speed = -128 / 332 ∧
    (_parsePacket ⟨true, m, b⟩ ⟨0x0402, 0xAA, 0x12, 0x80, 0, 0, 0, 0, 0, 0⟩
        st).2.right_wheel_speed = -128 / 332 ∧
    (_parsePacket ⟨true, m, b⟩ ⟨0x0405, 0xAA, 0x12, 0x80, 0, 0, 0, 0, 0, 0⟩
        st).2.left_motor_torque = -128 / 1094 ∧
    (_parsePacket ⟨true, m, b⟩ ⟨0x0405, 0xAA, 0x12, 0x80, 0, 0, 0, 0, 0, 0⟩
        st).2.right_motor_torque = -128 / 1094 := by
  have h1 : getShortInt ⟨true, m, b⟩ 0x12 0x80 = -128 := by
    simp only [getShortInt, charToInt, Bool.true_and, decide_eq_true_eq]
    decide
  have h2 : specSigned16 0x12 0x80 = 4736 := by decide
  have e6 := parsePacket_0x0406 ⟨true, m, b⟩ ⟨0x0406, 0xAA, 0x12, 0x80, 0, 0, 0, 0, 0, 0⟩ st
    (by decide) rfl
  have e2 := parsePacket_0x0402 ⟨true, m, b⟩ ⟨0x0402, 0xAA, 0x12, 0x80, 0, 0, 0, 0, 0, 0⟩ st
    (by decide) rfl
  have e5 := parsePacket_0x0405 ⟨true, m, b⟩ ⟨0x0405, 0xAA, 0x12, 0x80, 0, 0, 0, 0, 0, 0⟩ st
    (by decide) rfl
  simp only [h1] at e6 e2 e5
  rw [e6, e2, e5, h2]
  refine ⟨rfl, rfl, rfl, ?_, ?_, ?_, ?_, ?_⟩ <;> norm_num

/-! ### The read loop and the delivery threads -/

theorem parsePacket_closing_busy (bld : Build) (s : SegwayRMP) (packet : Packet)
    (hch : packet.channel ≠ 0xBB) (hid : packet.id = 0x0407)
    (hbusy : s.callback_execution_thread_status = true) :
    parsePacket bld s packet = { s with
      segway_status := (_parsePacket bld packet s.segway_status).2
      trace := s.trace ++ [Event.error "Callback Falling behind, skipping packet report..."] } := by
  have hf : (_parsePacket bld packet s.segway_status).1 = true := by
    rw [parsePacket_flag]; simp [hch, hid]
  unfold parsePacket
  simp only [hf, if_true]
  rw [if_pos hbusy]

theorem parsePacket_closing_idle (bld : Build) (s : SegwayRMP) (packet : Packet)
    (hch : packet.channel ≠ 0xBB) (hid : packet.id = 0x0407)
    (hidle : s.callback_execution_thread_status = false) :
    parsePacket bld s packet = { s with
      segway_status := (_parsePacket bld packet s.segway_status).2
      trace := s.trace ++ [Event.join,
        Event.executeCallback (_parsePacket bld packet s.segway_status).2] } := by
  have hf : (_parsePacket bld packet s.segway_status).1 = true := by
    rw [parsePacket_flag]; simp [hch, hid]
  unfold parsePacket
  simp only [hf, if_true]
  rw [if_neg (by simp [hidle])]

theorem parsePacket_not_closing (bld : Build) (s : SegwayRMP) (packet : Packet)
    (h : ¬ (packet.channel ≠ 0xBB ∧ packet.id = 0x0407)) :
    parsePacket bld s packet
      = { s with segway_status := (_parsePacket bld packet s.segway_status).2 } := by
  have hf : (_parsePacket bld packet s.segway_status).1 = false := by
    rw [parsePacket_flag]; simp only [decide_eq_false_iff_not]; exact h
  unfold parsePacket
  simp only [hf]
  rfl

theorem parsePacket_continuous (bld : Build) (s : SegwayRMP) (packet : Packet) :
    (parsePacket bld s packet).continuous = s.continuous := by
  simp only [parsePacket]
  split_ifs <;> rfl

theorem parsePacket_snapshot (bld : Build) (s : SegwayRMP) (packet : Packet) :
    (parsePacket bld s packet).segway_status = (_parsePacket bld packet s.segway_status).2 := by
  simp only [parsePacket]
  split_ifs <;> rfl

theorem receiveCount_append (a b : List Event) :
    receiveCount (a ++ b) = receiveCount a + receiveCount b := by
  induction a with
  | nil => simp [receiveCount]
  | cons e t ih => cases e <;> simp [receiveCount, ih]; omega

theorem parsePacket_receiveCount (bld : Build) (s : SegwayRMP) (packet : Packet) :
    receiveCount (parsePacket bld s packet).trace = receiveCount s.trace := by
  simp only [parsePacket]
  split_ifs <;> simp [receiveCount_append, receiveCount]

theorem stepWorker_finished (s : SegwayRMP) :
    ∀ (l : List Worker) (i : Nat), (∀ wk ∈ l, wk.pc = WorkerPc.finished) →
      stepWorker s i l = (s, l) := by
  intro l
  induction l with
  | nil => intro i _; cases i <;> rfl
  | cons wk rest ih =>
    intro i h
    have hwk : wk.pc = WorkerPc.finished := h wk (List.mem_cons_self _ _)
    have hrest : ∀ x ∈ rest, x.pc = WorkerPc.finished :=
      fun x hx => h x (List.mem_cons_of_mem _ hx)
    cases i with
    | zero => simp [stepWorker, executeCallbackStep, hwk]
    | succ j => simp [stepWorker, ih j hrest]

theorem step_olderFinished (bld : Build) (sys : Sys) (a : Action) (h : olderFinished sys) :
    olderFinished (step bld sys a) := by
  cases a with
  | parsePacket packet =>
    simp only [step]
    split_ifs <;> exact h
  | joinReturns =>
    simp only [step]
    split_ifs with hj
    · intro wk hwk
      simp only [List.tail_cons] at hwk
      simp only [Bool.and_eq_true] at hj
      cases hw : sys.workers with
      | nil => rw [hw] at hwk; cases hwk
      | cons w rest =>
        rw [hw] at hwk hj
        rcases List.mem_cons.mp hwk with rfl | hmem
        · simpa [joinable] using hj.2
        · exact h wk (by rw [hw]; exact hmem)
    · exact h
  | worker i =>
    simp only [step]
    intro wk hwk
    cases hw : sys.workers with
    | nil => rw [hw] at hwk; cases i <;> simp [stepWorker] at hwk
    | cons w rest =>
      rw [hw] at hwk
      have hrest : ∀ x ∈ rest, x.pc = WorkerPc.finished := fun x hx => h x (by rw [hw]; exact hx)
      cases i with
      | zero =>
        simp only [stepWorker, List.tail_cons] at hwk
        exact hrest wk hwk
      | succ j =>
        simp only [stepWorker, List.tail_cons, stepWorker_finished sys.driver rest j hrest] at hwk
        exact hrest wk hwk

theorem run_olderFinished (bld : Build) (schedule : List Action) :
    ∀ sys : Sys, olderFinished sys → olderFinished (run bld sys schedule) := by
  induction schedule with
  | nil => intro sys h; exact h
  | cons a rest ih =>
    intro sys h
    exact ih (step bld sys a) (step_olderFinished bld sys a h)

theorem executing_le_one (sys : Sys) (h : olderFinished sys) : executing sys ≤ 1 := by
  unfold executing
  cases hw : sys.workers with
  | nil => simp
  | cons w rest =>
    have hrest : ∀ x ∈ rest, x.pc = WorkerPc.finished := fun x hx => h x (by rw [hw]; exact hx)
    have hnil : rest.filter (fun wk => decide (wk.pc = WorkerPc.inHandler)) = [] := by
      rw [List.filter_eq_nil_iff]
      intro x hx
      simp [hrest x hx]
    rw [List.filter_cons]
    split <;> simp [hnil]

theorem closing_flag (bld : Build) (packet : Packet) (st : SegwayStatus)
    (hch : packet.channel ≠ 0xBB) (hid : packet.id = 0x0407) :
    (_parsePacket bld packet st).1 = true := by
  rw [parsePacket_flag]; simp [hch, hid]

theorem second_frame_waits (bld : Build) (d : SegwayRMP) (c1 c2 : Packet)
    (hidle : d.callback_execution_thread_status = false)
    (h1 : c1.channel ≠ 0xBB ∧ c1.id = 0x0407) (h2 : c2.channel ≠ 0xBB ∧ c2.id = 0x0407) :
    run bld (Sys.init d) [Action.parsePacket c1, Action.joinReturns, Action.parsePacket c2]
      = { driver := { d with
            segway_status := (_parsePacket bld c2 (_parsePacket bld c1 d.segway_status).2).2
            trace := d.trace ++ [Event.join,
              Event.executeCallback (_parsePacket bld c1 d.segway_status).2, Event.join] }
          workers := [⟨(_parsePacket bld c1 d.segway_status).2, WorkerPc.launched⟩]
          joining := true } ∧
    step bld (run bld (Sys.init d)
        [Action.parsePacket c1, Action.joinReturns, Action.parsePacket c2]) Action.joinReturns
      = run bld (Sys.init d) [Action.parsePacket c1, Action.joinReturns, Action.parsePacket c2] := by
  have key : run bld (Sys.init d)
      [Action.parsePacket c1, Action.joinReturns, Action.parsePacket c2]
      = { driver := { d with
            segway_status := (_parsePacket bld c2 (_parsePacket bld c1 d.segway_status).2).2
            trace := d.trace ++ [Event.join,
              Event.executeCallback (_parsePacket bld c1 d.segway_status).2, Event.join] }
          workers := [⟨(_parsePacket bld c1 d.segway_status).2, WorkerPc.launched⟩]
          joining := true } := by
    simp [run, step, Sys.init, closing_flag bld c1 _ h1.1 h1.2, closing_flag bld c2 _ h2.1 h2.2,
      hidle, joinable]
  refine ⟨key, ?_⟩
  rw [key]
  simp [step, joinable]

theorem run_worker_to_end (bld : Build) (s : SegwayRMP) (copy : SegwayStatus) :
    run bld ⟨s, [⟨copy, WorkerPc.launched⟩], false⟩
        [Action.worker 0, Action.worker 0, Action.worker 0, Action.worker 0]
      = ⟨executeCallback s copy, [⟨copy, WorkerPc.finished⟩], false⟩ := by
  rfl

theorem run_parsePacket_join (bld : Build) (sys : Sys) (packet : Packet)
    (hj : sys.joining = false) (hw : joinable sys.workers = true) :
    (run bld sys [Action.parsePacket packet, Action.joinReturns]).driver
      = parsePacket bld sys.driver packet := by
  simp only [run, List.foldl, step, hj, parsePacket]
  split_ifs <;> simp_all

/-! ### Claims about the read loop and the delivery of snapshots -/

/-- C13, at an input where the code departs from the claim: `executeCallback` hands the member
`this->segway_status` to the handler and never reads the copy it was launched with. When a 0x0401
frame is decoded after the cycle-closing frame and before the delivery thread calls the handler,
the copy taken at the closing frame has pitch 0 and the handler receives a snapshot with
pitch 10. -/
theorem handler_gets_live_snapshot :
    (∀ (s : SegwayRMP) (copy : SegwayStatus),
      executeCallback s copy = { s with
        callback_execution_thread_status := false
        trace := s.trace ++ [Event.status_callback s.segway_status] }) ∧
    (∀ (s : SegwayRMP) (copy : SegwayStatus),
      (executeCallbackStep s ⟨copy, WorkerPc.flagged⟩).1.trace
        = s.trace ++ [Event.status_callback s.segway_status]) ∧
    (run Build.x86 (Sys.init SegwayRMP.ready)
        [Action.parsePacket ⟨0x0407, 0xAA, 0, 0, 0, 0, 0, 0, 0, 0⟩, Action.joinReturns,
          Action.parsePacket ⟨0x0401, 0xAA, 0x00, 0x4E, 0, 0, 0, 0, 0, 0⟩,
          Action.worker 0, Action.worker 0]).driver.trace
      = [Event.join,
          Event.executeCallback
            (_parsePacket Build.x86 ⟨0x0407, 0xAA, 0, 0, 0, 0, 0, 0, 0, 0⟩ SegwayStatus.zero).2,
          Event.status_callback
            (_parsePacket Build.x86 ⟨0x0401, 0xAA, 0x00, 0x4E, 0, 0, 0, 0, 0, 0⟩
              (_parsePacket Build.x86 ⟨0x0407, 0xAA, 0, 0, 0, 0, 0, 0, 0, 0⟩
                SegwayStatus.zero).2).2] ∧
    (_parsePacket Build.x86 ⟨0x0407, 0xAA, 0, 0, 0, 0, 0, 0, 0, 0⟩ SegwayStatus.zero).2.pitch = 0 ∧
    (_parsePacket Build.x86 ⟨0x0401, 0xAA, 0x00, 0x4E, 0, 0, 0, 0, 0, 0⟩
      (_parsePacket Build.x86 ⟨0x0407, 0xAA, 0, 0, 0, 0, 0, 0, 0, 0⟩
        SegwayStatus.zero).2).2.pitch = 10 := by
  refine ⟨fun s copy => rfl, fun s copy => rfl, ?_, ?_, ?_⟩
  · simp [run, step, Sys.init, SegwayRMP.ready, joinable, stepWorker, executeCallbackStep,
      closing_flag Build.x86 ⟨0x0407, 0xAA, 0, 0, 0, 0, 0, 0, 0, 0⟩ _ (by decide) rfl,
      parsePacket_flag]
  · rw [parsePacket_0x0407 _ _ _ (by decide) rfl]
    rfl
  · rw [parsePacket_0x0401 _ _ _ (by decide) rfl]
    have h : getShortInt Build.x86 0x00 0x4E = 78 := by decide
    simp only [h]
    norm_num

/-- C14: when `parsePacket` processes a cycle-closing frame (telemetry channel, identifier 0x0407)
while the busy flag `callback_execution_thread_status` is set, the only call it makes is one
`error` with the falling-behind message: no delivery thread is launched and nothing is kept for
later. When the flag is clear it makes no `error` call, and after `join` launches exactly one
delivery thread with a copy of the updated snapshot. For a frame that does not close a cycle it
makes no call at all. In every case the snapshot is updated as `_parsePacket` does. -/
theorem delivery_dropped_when_busy (bld : Build) (s : SegwayRMP) (packet : Packet) :
    (packet.channel ≠ 0xBB ∧ packet.id = 0x0407 →
      (s.callback_execution_thread_status = true →
        parsePacket bld s packet = { s with
          segway_status := (_parsePacket bld packet s.segway_status).2
          trace := s.trace ++
            [Event.error "Callback Falling behind, skipping packet report..."] }) ∧
      (s.callback_execution_thread_status = false →
        parsePacket bld s packet = { s with
          segway_status := (_parsePacket bld packet s.segway_status).2
          trace := s.trace ++ [Event.join,
            Event.executeCallback (_parsePacket bld packet s.segway_status).2] })) ∧
    (¬ (packet.channel ≠ 0xBB ∧ packet.id = 0x0407) →
      parsePacket bld s packet
        = { s with segway_status := (_parsePacket bld packet s.segway_status).2 }) :=
  ⟨fun h => ⟨parsePacket_closing_busy bld s packet h.1 h.2,
      parsePacket_closing_idle bld s packet h.1 h.2⟩,
    parsePacket_not_closing bld s packet⟩

theorem delivery_dropped_when_busy_witness :
    parsePacket Build.x86 ⟨true, true, true, SegwayStatus.zero, []⟩
        ⟨0x0407, 0xAA, 0, 9, 0, 0, 0, 0, 0, 0⟩
      = { (⟨true, true, true, SegwayStatus.zero, []⟩ : SegwayRMP) with
          segway_status :=
            (_parsePacket Build.x86 ⟨0x0407, 0xAA, 0, 9, 0, 0, 0, 0, 0, 0⟩ SegwayStatus.zero).2
          trace := [Event.error "Callback Falling behind, skipping packet report..."] } ∧
    parsePacket Build.x86 SegwayRMP.ready ⟨0x0407, 0xAA, 0, 9, 0, 0, 0, 0, 0, 0⟩
      = { SegwayRMP.ready with
          segway_status :=
            (_parsePacket Build.x86 ⟨0x0407, 0xAA, 0, 9, 0, 0, 0, 0, 0, 0⟩ SegwayStatus.zero).2
          trace := [Event.join, Event.executeCallback
            (_parsePacket Build.x86 ⟨0x0407, 0xAA, 0, 9, 0, 0, 0, 0, 0, 0⟩
              SegwayStatus.zero).2] } :=
  ⟨((delivery_dropped_when_busy Build.x86 ⟨true, true, true, SegwayStatus.zero, []⟩
      ⟨0x0407, 0xAA, 0, 9, 0, 0, 0, 0, 0, 0⟩).1 ⟨by decide, rfl⟩).1 rfl,
    ((delivery_dropped_when_busy Build.x86 SegwayRMP.ready
      ⟨0x0407, 0xAA, 0, 9, 0, 0, 0, 0, 0, 0⟩).1 ⟨by decide, rfl⟩).2 rfl⟩

/-- C15: when the next three receives of a running read loop are a checksum mismatch (error
number 2), no data (error number 3) and a valid frame, the loop is still running after the three
iterations; it has made one `error` call for each failure ("Checksum mismatch...", then "No data
from Segway..."), the snapshot after the two failures is the one before them, and the valid frame
is handled by `parsePacket`, so the snapshot after it is the one `_parsePacket` produces. -/
theorem read_loop_survives_transient_failures (bld : Build) (getPacket : Nat → Received)
    (s : SegwayRMP) (packet : Packet) (hrun : s.continuous = true)
    (h0 : getPacket (receiveCount s.trace) = Received.PacketRetrievalException 2)
    (h1 : getPacket (receiveCount s.trace + 1) = Received.PacketRetrievalException 3)
    (h2 : getPacket (receiveCount s.trace + 2) = Received.packet packet) :
    readContinuously bld getPacket 3 s = (LoopEnd.running,
      parsePacket bld { s with trace := s.trace ++ [Event.getPacket,
        Event.error "Checksum mismatch...", Event.getPacket,
        Event.error "No data from Segway...", Event.getPacket] } packet) ∧
    (readContinuously bld getPacket 3 s).2.continuous = true ∧
    (readContinuously bld getPacket 3 s).2.segway_status
      = (_parsePacket bld packet s.segway_status).2 ∧
    readContinuously bld getPacket 2 s = (LoopEnd.running,
      { s with trace := s.trace ++ [Event.getPacket,
        Event.error "Checksum mismatch...", Event.getPacket,
        Event.error "No data from Segway..."] }) := by
  have key : readContinuously bld getPacket 3 s = (LoopEnd.running,
      parsePacket bld { s with trace := s.trace ++ [Event.getPacket,
        Event.error "Checksum mismatch...", Event.getPacket,
        Event.error "No data from Segway...", Event.getPacket] } packet) := by
    simp [readContinuously, hrun, h0, h1, h2, receiveCount_append, receiveCount]
  have key2 : readContinuously bld getPacket 2 s = (LoopEnd.running,
      { s with trace := s.trace ++ [Event.getPacket,
        Event.error "Checksum mismatch...", Event.getPacket,
        Event.error "No data from Segway..."] }) := by
    simp [readContinuously, hrun, h0, h1, receiveCount_append, receiveCount]
  refine ⟨key, ?_, ?_, key2⟩
  · rw [key]; simp [parsePacket_continuous, hrun]
  · rw [key]; simp [parsePacket_snapshot]

theorem read_loop_survives_transient_failures_witness :
    (readContinuously Build.x86
        (receiveAfterTwoFailures ⟨0x0401, 0xAA, 0x00, 0x4E, 0, 0, 0, 0, 0, 0⟩) 3
        SegwayRMP.ready).1 = LoopEnd.running ∧
    (readContinuously Build.x86
        (receiveAfterTwoFailures ⟨0x0401, 0xAA, 0x00, 0x4E, 0, 0, 0, 0, 0, 0⟩) 3
        SegwayRMP.ready).2.segway_status
      = (_parsePacket Build.x86 ⟨0x0401, 0xAA, 0x00, 0x4E, 0, 0, 0, 0, 0, 0⟩
          SegwayStatus.zero).2 :=
  have h := read_loop_survives_transient_failures Build.x86
    (receiveAfterTwoFailures ⟨0x0401, 0xAA, 0x00, 0x4E, 0, 0, 0, 0, 0, 0⟩) SegwayRMP.ready
    ⟨0x0401, 0xAA, 0x00, 0x4E, 0, 0, 0, 0, 0, 0⟩ rfl rfl rfl rfl
  ⟨congrArg Prod.fst h.1, h.2.2.1⟩

/-- C16, the claim as stated fails: after a receive failure with error number 1 the read loop has
handed no message to `error`, and the running flag `continuous` is still true. -/
theorem read_loop_other_failure_unreported :
    readContinuously Build.x86 (fun _ => Received.PacketRetrievalException 1) 5 SegwayRMP.ready
      = (LoopEnd.thrown 1, { SegwayRMP.ready with trace := [Event.getPacket] }) ∧
    errorMessages (readContinuously Build.x86 (fun _ => Received.PacketRetrievalException 1) 5
      SegwayRMP.ready).2.trace = [] ∧
    (readContinuously Build.x86 (fun _ => Received.PacketRetrievalException 1) 5
      SegwayRMP.ready).2.continuous = true := by
  refine ⟨rfl, rfl, rfl⟩

/-- C16 as amended: for every receive failure whose error number is neither 2 nor 3, the running
read loop leaves `readContinuously` by rethrowing the exception; after the failing receive it
makes no further call (no frame is processed, no message is handed to `error`) and the running
flag `continuous` is left as it was. -/
theorem read_loop_rethrows_other_failures (bld : Build) (getPacket : Nat → Received)
    (s : SegwayRMP) (error_number : Int) (fuel : Nat) (hrun : s.continuous = true)
    (hn2 : error_number ≠ 2) (hn3 : error_number ≠ 3)
    (h0 : getPacket (receiveCount s.trace) = Received.PacketRetrievalException error_number) :
    readContinuously bld getPacket (fuel + 1) s = (LoopEnd.thrown error_number,
      { s with trace := s.trace ++ [Event.getPacket] }) := by
  simp [readContinuously, hrun, h0, hn2, hn3]

theorem read_loop_rethrows_other_failures_witness :
    readContinuously Build.x86 (fun _ => Received.PacketRetrievalException 7) 4 SegwayRMP.ready
      = (LoopEnd.thrown 7, { SegwayRMP.ready with trace := [Event.getPacket] }) :=
  read_loop_rethrows_other_failures Build.x86 (fun _ => Received.PacketRetrievalException 7)
    SegwayRMP.ready 7 3 rfl (by decide) (by decide) rfl

/-- C17: in every state reached from a driver with no delivery thread by any interleaving of the
read thread (`parsePacket` up to `join`, then the return of `join` and the launch) with the
statements of the delivery threads (set the flag, call the handler, handler returns, clear the
flag), at most one delivery thread is inside the handler, and every delivery thread but the newest
has ended: `join` keeps the read thread from launching a thread before the previous one has
ended, also when it found the flag clear. -/
theorem single_flight (bld : Build) (d : SegwayRMP) (schedule : List Action) :
    executing (run bld (Sys.init d) schedule) ≤ 1 ∧
    (∀ wk ∈ (run bld (Sys.init d) schedule).workers.tail, wk.pc = WorkerPc.finished) := by
  have h : olderFinished (run bld (Sys.init d) schedule) :=
    run_olderFinished bld schedule (Sys.init d) (by intro wk hwk; simp [Sys.init] at hwk)
  exact ⟨executing_le_one _ h, h⟩

theorem single_flight_witness :
    executing (run Build.x86 (Sys.init SegwayRMP.ready)
      [Action.parsePacket ⟨0x0407, 0xAA, 0, 0, 0, 0, 0, 0, 0, 0⟩, Action.joinReturns,
        Action.parsePacket ⟨0x0407, 0xAA, 0, 1, 0, 0, 0, 0, 0, 0⟩, Action.joinReturns,
        Action.worker 0, Action.worker 0, Action.joinReturns]) ≤ 1 :=
  (single_flight Build.x86 SegwayRMP.ready
    [Action.parsePacket ⟨0x0407, 0xAA, 0, 0, 0, 0, 0, 0, 0, 0⟩, Action.joinReturns,
      Action.parsePacket ⟨0x0407, 0xAA, 0, 1, 0, 0, 0, 0, 0, 0⟩, Action.joinReturns,
      Action.worker 0, Action.worker 0, Action.joinReturns]).1

end segwayrmp
